import Mathlib

/-!
Verification of the Gopher2600 Atari 2600 emulator core against its
natural-language specification.

The development shallowly embeds the Go source of the emulator:

* the IEEE-754 binary32 arithmetic used by the paddle recharge code
  (`hardware/riot/input`, file part_000);
* the `HandController.Handle` event dispatcher and the paddle
  `recharge` function (part_000);
* the cartridge fingerprint functions and `Cartridge.fingerprint`
  (`hardware/memory/vcs/chip_riot.go`, second document);
* the Parker Bros (E0) cartridge mapper (`mapper_parkerbros.go`);
* the TIA control state machine (`hardware/tia/tia.go`);
* the VCS orchestrator `Step` / `cycleVCS` (part_002).

The `phaseclock`, `polycounter` and `delay` packages used by `tia.go`
are not part of the provided sources; the definitions embedding them
are modelled from the specification and are marked as such in their
doc comments.

Machine integers are embedded as `Nat` with explicit wrap-around where
the Go code can overflow.  Go panics (out-of-range slice indexing) are
embedded as `Option`, with `none` standing for a panic.  Go float32
values are embedded as normalized dyadic rationals (sign-magnitude
significand and exponent) with round-to-nearest-even, which coincides
with IEEE-754 binary32 on the normal range exercised by the code.
-/

set_option autoImplicit false

/-! ## IEEE-754 binary32 model (normal range)

The paddle code in the input package uses Go `float32` arithmetic.  A
binary32 value in the normal range is `m * 2^e` with `2^23 ≤ |m| < 2^24`;
zero is represented with `m = 0`.  Addition aligns the two significands,
adds exactly, and rounds the result to 24 bits of significand with
round-to-nearest, ties-to-even. -/

/-- Number of binary digits of a natural number (64-bit fuel, enough for
every significand produced by aligning two binary32 values). -/
def nbitsGo : Nat → Nat → Nat
  | 0, _ => 0
  | fuel + 1, n => if n = 0 then 0 else nbitsGo fuel (n / 2) + 1

/-- Number of binary digits of a natural number. -/
def nbits (n : Nat) : Nat := nbitsGo 64 n

/-- A Go `float32` value in the normal range (or zero): the value is
`m * 2^e`, with `2^23 ≤ m.natAbs < 2^24` for nonzero values. -/
structure F32 where
  m : Int
  e : Int
  deriving DecidableEq, Repr

/-- The float32 value positive zero. -/
def f32Zero : F32 := ⟨0, 0⟩

/-- Round a positive integer significand `s` at exponent `e` to a
normalized binary32 value, round-to-nearest with ties to even. -/
def roundPosF32 (s : Nat) (e : Int) : F32 :=
  let k := nbits s - 1
  if k ≤ 23 then
    ⟨(s * 2 ^ (23 - k) : Nat), e - (23 - k)⟩
  else
    let sh := k - 23
    let q := s / 2 ^ sh
    let r := s % 2 ^ sh
    let half := 2 ^ (sh - 1)
    let q2 := if half < r ∨ (r = half ∧ q % 2 = 1) then q + 1 else q
    if q2 = 2 ^ 24 then ⟨(2 ^ 23 : Nat), e + sh + 1⟩ else ⟨(q2 : Nat), e + sh⟩

/-- Binary32 addition: exact aligned sum followed by a single rounding. -/
def addF32 (a b : F32) : F32 :=
  if a.m = 0 then b
  else if b.m = 0 then a
  else
    let e0 := min a.e b.e
    let s := a.m * 2 ^ (a.e - e0).toNat + b.m * 2 ^ (b.e - e0).toNat
    if s = 0 then f32Zero
    else if 0 < s then roundPosF32 s.toNat e0
    else
      let f := roundPosF32 (-s).toNat e0
      ⟨-f.m, f.e⟩

/-- Binary32 subtraction. -/
def subF32 (a b : F32) : F32 := addF32 a ⟨-b.m, b.e⟩

/-- Binary32 comparison `a ≥ b` (exact comparison of the represented
dyadic values). -/
def geF32 (a b : F32) : Bool :=
  let e0 := min a.e b.e
  b.m * 2 ^ (b.e - e0).toNat ≤ a.m * 2 ^ (a.e - e0).toNat

/-- The float32 literal `0.01` (the source constant `paddleSensitivity`):
`10737418 * 2^-30` is the binary32 value nearest `1/100`. -/
def paddleSensitivity : F32 := ⟨10737418, -30⟩

/-- The float32 literal `0.5`. -/
def f32Half : F32 := ⟨8388608, -24⟩

/-- The float32 literal `1.0`. -/
def f32One : F32 := ⟨8388608, -23⟩

/-! ## Input: hand controllers (input package, part_000)

The embedding renders `HandController` with its `stick`, `paddle` and
`keyboard` sub-structures flattened into one record.  Writes into RIOT/TIA
chip memory (`InputDeviceWrite` calls) are embedded as an emitted list of
`ChipWrite` values rather than as mutation of a memory array; an empty
list means the chip memory driven by the controller is untouched.  The
per-port `transform` closure of the source is rendered by the `id0` flag
(controller zero uses the identity, controller one shifts right by 4).
The optional event recorder is not attached (`hc.recorder == nil`). -/

/-- Which controller type is being used (source type `ControllerType`). -/
inductive ControllerType where
  | JoystickType
  | PaddleType
  | KeyboardType
  deriving DecidableEq, Repr

/-- Chip registers written by the hand controllers. -/
inductive ChipReg where
  | SWCHA
  | INPT0
  | INPT1
  | INPT4
  | INPT5
  deriving DecidableEq, Repr

/-- One call to `InputDeviceWrite(reg, data, preserveMask)`. -/
structure ChipWrite where
  reg : ChipReg
  data : Nat
  mask : Nat
  deriving DecidableEq, Repr

/-- Input events handled by `HandController.Handle`.  `OtherEvent` stands
for any event value not named in the switch (it reaches the `default`
branch of the source). -/
inductive Event where
  | NoEvent
  | Left
  | Right
  | Up
  | Down
  | Fire
  | PaddleFire
  | PaddleSet
  | KeyboardDown
  | KeyboardUp
  | Unplug
  | OtherEvent
  deriving DecidableEq, Repr

/-- The dynamically-typed `EventValue` (`interface{}` in the source). -/
inductive EventValue where
  | vBool (b : Bool)
  | vFloat (f : F32)
  | vRune (c : Char)
  | vNil
  | vOther
  deriving DecidableEq, Repr

/-- Errors returned by `HandController.Handle`. -/
inductive InputError where
  | BadInputEventType
  | UnknownInputEvent
  | InputDeviceUnplugged
  deriving DecidableEq, Repr

/-- The hand controller state (source struct `HandController` with the
`stick`, `paddle` and `keyboard` structs flattened in). -/
structure HandController where
  id0 : Bool
  which : ControllerType
  stickAxisReg : ChipReg
  stickButtonReg : ChipReg
  stickAxis : Nat
  stickButton : Bool
  stickAddrMask : Nat
  paddlePuckReg : ChipReg
  paddleButtonReg : ChipReg
  paddleButtonMask : Nat
  paddleCharge : Nat
  paddleResistance : F32
  paddleTicks : F32
  keyboardKey : Char
  ddr : Nat
  latchFireButton : Bool
  deriving DecidableEq, Repr

/-- The per-port `transform` closure: identity for controller zero,
shift right by four for controller one. -/
def stickTransform (hc : HandController) (n : Nat) : Nat :=
  if hc.id0 then n else n >>> 4

/-- NewHandController0 (with the latch bit of the shared `ControlBits`
passed in explicitly). -/
def newHandController0 (latch : Bool) : HandController where
  id0 := true
  which := ControllerType.JoystickType
  stickAxisReg := ChipReg.SWCHA
  stickButtonReg := ChipReg.INPT4
  stickAxis := 0xf0
  stickButton := false
  stickAddrMask := 0x0f
  paddlePuckReg := ChipReg.INPT0
  paddleButtonReg := ChipReg.SWCHA
  paddleButtonMask := 0x7f
  paddleCharge := 0
  paddleResistance := f32Zero
  paddleTicks := f32Zero
  keyboardKey := ' '
  ddr := 0x00
  latchFireButton := latch

/-- NewHandController1. -/
def newHandController1 (latch : Bool) : HandController where
  id0 := false
  which := ControllerType.JoystickType
  stickAxisReg := ChipReg.SWCHA
  stickButtonReg := ChipReg.INPT5
  stickAxis := 0xf0
  stickButton := false
  stickAddrMask := 0xf0
  paddlePuckReg := ChipReg.INPT1
  paddleButtonReg := ChipReg.SWCHA
  paddleButtonMask := 0xbf
  paddleCharge := 0
  paddleResistance := f32Zero
  paddleTicks := f32Zero
  keyboardKey := ' '
  ddr := 0x00
  latchFireButton := latch

/-- Result of `HandController.Handle`: updated controller, emitted chip
memory writes, and the returned error (if any). -/
structure HandleResult where
  hc : HandController
  writes : List ChipWrite
  err : Option InputError
  deriving DecidableEq, Repr

/-- Direct translation of `HandController.Handle` (part_000 lines
182-330).  Each `errors.New(...)` return is rendered as the matching
`InputError`; the event recorder is nil so the recording branch at the
end of the source function is a successful no-op. -/
def HandController.Handle (hc : HandController) (event : Event)
    (value : EventValue) : HandleResult :=
  match event with
  | Event.NoEvent => ⟨hc, [], none⟩
  | Event.Left =>
    match value with
    | EventValue.vBool b =>
      let hc := { hc with which := ControllerType.JoystickType }
      let hc := { hc with
        stickAxis := if b then hc.stickAxis ^^^ 0x40 else hc.stickAxis ||| 0x40 }
      ⟨hc, [⟨hc.stickAxisReg, stickTransform hc hc.stickAxis, hc.stickAddrMask⟩], none⟩
    | _ => ⟨hc, [], some InputError.BadInputEventType⟩
  | Event.Right =>
    match value with
    | EventValue.vBool b =>
      let hc := { hc with which := ControllerType.JoystickType }
      let hc := { hc with
        stickAxis := if b then hc.stickAxis ^^^ 0x80 else hc.stickAxis ||| 0x80 }
      ⟨hc, [⟨hc.stickAxisReg, stickTransform hc hc.stickAxis, hc.stickAddrMask⟩], none⟩
    | _ => ⟨hc, [], some InputError.BadInputEventType⟩
  | Event.Up =>
    match value with
    | EventValue.vBool b =>
      let hc := { hc with which := ControllerType.JoystickType }
      let hc := { hc with
        stickAxis := if b then hc.stickAxis ^^^ 0x10 else hc.stickAxis ||| 0x10 }
      ⟨hc, [⟨hc.stickAxisReg, stickTransform hc hc.stickAxis, hc.stickAddrMask⟩], none⟩
    | _ => ⟨hc, [], some InputError.BadInputEventType⟩
  | Event.Down =>
    match value with
    | EventValue.vBool b =>
      let hc := { hc with which := ControllerType.JoystickType }
      let hc := { hc with
        stickAxis := if b then hc.stickAxis ^^^ 0x20 else hc.stickAxis ||| 0x20 }
      ⟨hc, [⟨hc.stickAxisReg, stickTransform hc hc.stickAxis, hc.stickAddrMask⟩], none⟩
    | _ => ⟨hc, [], some InputError.BadInputEventType⟩
  | Event.Fire =>
    match value with
    | EventValue.vBool b =>
      let hc := { hc with which := ControllerType.JoystickType }
      let hc := { hc with stickButton := b }
      if hc.stickButton then
        ⟨hc, [⟨hc.stickButtonReg, 0x00, 0x00⟩], none⟩
      else if !hc.latchFireButton then
        ⟨hc, [⟨hc.stickButtonReg, 0x80, 0x00⟩], none⟩
      else
        ⟨hc, [], none⟩
    | _ => ⟨hc, [], some InputError.BadInputEventType⟩
  | Event.PaddleFire =>
    match value with
    | EventValue.vBool b =>
      let hc := { hc with which := ControllerType.PaddleType }
      let v : Nat := if b then 0x00 else 0xff
      ⟨hc, [⟨hc.paddleButtonReg, v, hc.paddleButtonMask⟩], none⟩
    | _ => ⟨hc, [], some InputError.BadInputEventType⟩
  | Event.PaddleSet =>
    match value with
    | EventValue.vFloat f =>
      let hc := { hc with which := ControllerType.PaddleType }
      let hc := { hc with paddleResistance := subF32 f32One f }
      ⟨hc, [], none⟩
    | _ => ⟨hc, [], some InputError.BadInputEventType⟩
  | Event.KeyboardDown =>
    match value with
    | EventValue.vRune v =>
      let hc := { hc with which := ControllerType.KeyboardType }
      if v ≠ '1' ∧ v ≠ '2' ∧ v ≠ '3' ∧ v ≠ '4' ∧ v ≠ '5' ∧ v ≠ '6' ∧
          v ≠ '7' ∧ v ≠ '8' ∧ v ≠ '9' ∧ v ≠ '*' ∧ v ≠ '#' then
        ⟨hc, [], some InputError.BadInputEventType⟩
      else
        ⟨{ hc with keyboardKey := v }, [], none⟩
    | _ => ⟨hc, [], some InputError.BadInputEventType⟩
  | Event.KeyboardUp =>
    match value with
    | EventValue.vNil =>
      let hc := { hc with which := ControllerType.KeyboardType }
      ⟨{ hc with keyboardKey := ' ' }, [], none⟩
    | _ => ⟨hc, [], some InputError.BadInputEventType⟩
  | Event.Unplug => ⟨hc, [], some InputError.InputDeviceUnplugged⟩
  | Event.OtherEvent => ⟨hc, [], some InputError.UnknownInputEvent⟩

/-- Direct translation of `HandController.recharge` (part_000 lines
367-391), called once per video step: the accumulator gains
`paddleSensitivity`; when it reaches the paddle resistance the charge
increments and the new charge is written to the puck register. -/
def HandController.recharge (hc : HandController) :
    HandController × List ChipWrite :=
  if hc.which ≠ ControllerType.PaddleType then (hc, [])
  else if hc.paddleCharge < 255 then
    let t := addF32 hc.paddleTicks paddleSensitivity
    if geF32 t hc.paddleResistance then
      let hc := { hc with paddleTicks := f32Zero, paddleCharge := hc.paddleCharge + 1 }
      (hc, [⟨hc.paddlePuckReg, hc.paddleCharge, 0x00⟩])
    else
      ({ hc with paddleTicks := t }, [])
  else (hc, [])

/-- Iterate `recharge` (the per-video-cycle `step()` of the controller),
discarding the emitted writes. -/
def rechargeIter : Nat → HandController → HandController
  | 0, hc => hc
  | n + 1, hc => (HandController.recharge (rechargeIter n hc)).1

/-- The exact float32 trajectory of the ticks accumulator while no
charge increment fires: `n` accumulated additions of `paddleSensitivity`
starting from zero. -/
def ticksTraj : Nat → F32
  | 0 => f32Zero
  | n + 1 => addF32 (ticksTraj n) paddleSensitivity

/-! ## Cartridge fingerprinting (chip_riot.go, second document)

A ROM image is a `List Nat` of bytes.  Functions that can index out of
range in Go return `Option`; `none` renders the Go runtime panic.  The
fingerprint chooser `Cartridge.fingerprint` is embedded as a choice of
mapper kind; the subsequent constructor calls (`newTigervision`, ...)
are not part of the choice and are not embedded. -/

/-- The loop of `fingerprintTigervision`, recursing over adjacent byte
pairs with the current threshold (the loop bound `i < len(b)-1` means
the final byte is never read as `b[i]`, so the function is total). -/
def fingerprintTigervisionLoop : List Nat → Nat → Bool
  | x :: y :: rest, t =>
    let t2 := if x = 0x85 ∧ y = 0x3f then t - 1 else t
    if t2 = 0 then true else fingerprintTigervisionLoop (y :: rest) t2
  | _, _ => false

/-- fingerprintTigervision: at least five occurrences of the byte pair
`85 3f` (threshold starts at 5). -/
def fingerprintTigervision (b : List Nat) : Bool :=
  fingerprintTigervisionLoop b 5

/-- Number of adjacent pairs `85 3f` in an image. -/
def count853f : List Nat → Nat
  | x :: y :: rest => (if x = 0x85 ∧ y = 0x3f then 1 else 0) + count853f (y :: rest)
  | _ => 0

/-- The loop of `fingerprint3ePlus`.  The Go loop `for i := range b`
includes the final index, where `b[i+1]` is read whenever `b[i] == 0x85`:
that read is out of range and panics (`none`).  Go decrements the
thresholds below zero; with the comparison `<= 0` this is equivalent to
the clamped `Nat` subtraction used here. -/
def fp3eLoop : List Nat → Nat → Nat → Option Bool
  | [], _, _ => some false
  | [x], t3e, t3f =>
    if x = 0x85 then none
    else if t3e = 0 ∧ t3f = 0 then some true
    else some false
  | x :: y :: rest, t3e, t3f =>
    let t3e := if x = 0x85 ∧ y = 0x3e then t3e - 1 else t3e
    let t3f := if x = 0x85 ∧ y = 0x3f then t3f - 1 else t3f
    if t3e = 0 ∧ t3f = 0 then some true
    else fp3eLoop (y :: rest) t3e t3f

/-- fingerprint3ePlus: both thresholds (for `85 3e` and `85 3f`) start
at 5. -/
def fingerprint3ePlus (b : List Nat) : Option Bool :=
  fp3eLoop b 5 5

/-- fingerprintMnetwork: at least two occurrences of `7e 66 66 66`
(loop bound `i < len(b)-3`, total). -/
def fingerprintMnetworkLoop : List Nat → Nat → Bool
  | a :: b :: c :: d :: rest, t =>
    let t2 := if a = 0x7e ∧ b = 0x66 ∧ c = 0x66 ∧ d = 0x66 then t - 1 else t
    if t2 = 0 then true else fingerprintMnetworkLoop (b :: c :: d :: rest) t2
  | _, _ => false

/-- fingerprintMnetwork with its threshold of 2. -/
def fingerprintMnetwork (b : List Nat) : Bool :=
  fingerprintMnetworkLoop b 2

/-- One of the eight three-byte Parker Bros patterns (from Stella's
CartDetector). -/
def parkerBrosPattern (a b c : Nat) : Bool :=
  (a = 0x8d ∧ b = 0xe0 ∧ c = 0x1f) ∨
  (a = 0x8d ∧ b = 0xe0 ∧ c = 0x5f) ∨
  (a = 0x8d ∧ b = 0xe9 ∧ c = 0xff) ∨
  (a = 0x0c ∧ b = 0xe0 ∧ c = 0x1f) ∨
  (a = 0xad ∧ b = 0xe0 ∧ c = 0x1f) ∨
  (a = 0xad ∧ b = 0xe9 ∧ c = 0xff) ∨
  (a = 0xad ∧ b = 0xed ∧ c = 0xff) ∨
  (a = 0xad ∧ b = 0xf3 ∧ c = 0xbf)

/-- fingerprintParkerBros (loop bound `i <= len(b)-3`, total). -/
def fingerprintParkerBros : List Nat → Bool
  | a :: b :: c :: rest =>
    if parkerBrosPattern a b c then true else fingerprintParkerBros (b :: c :: rest)
  | _ => false

/-- fingerprintHarmony reads `b[0x20] .. b[0x23]` with no length guard;
the Go `&&` short-circuits, so the panic (`none`) occurs at the first
out-of-range index actually reached. -/
def fingerprintHarmony (b : List Nat) : Option Bool :=
  match b.get? 0x20 with
  | none => none
  | some v0 =>
    if v0 = 0x1e then
      match b.get? 0x21 with
      | none => none
      | some v1 =>
        if v1 = 0xab then
          match b.get? 0x22 with
          | none => none
          | some v2 =>
            if v2 = 0xad then
              match b.get? 0x23 with
              | none => none
              | some v3 => some (v3 = 0x10)
            else some false
        else some false
    else some false

/-- fingerprintSuperchargerFastLoad: a pure function of the length. -/
def fingerprintSuperchargerFastLoad (b : List Nat) : Bool :=
  b.length = 8448 ∨ b.length = 25344 ∨ b.length = 33792

/-- The mapper (or error) selected by `Cartridge.fingerprint`.  The two
error outcomes of the size switch are explicit constructors. -/
inductive MapperChoice where
  | dpcPlus
  | superchargerAR
  | the3ePlus
  | atari2k
  | atari4k
  | tigervision
  | parkerBrosE0
  | atari8k
  | mnetwork
  | atari16k
  | dpc
  | cbs
  | atari32k
  | err65536
  | errUnrecognisedSize
  deriving DecidableEq, Repr

/-- fingerprint8k: tigervision, then parker bros, then plain Atari 8k. -/
def fingerprint8k (data : List Nat) : MapperChoice :=
  if fingerprintTigervision data then MapperChoice.tigervision
  else if fingerprintParkerBros data then MapperChoice.parkerBrosE0
  else MapperChoice.atari8k

/-- fingerprint16k: tigervision, then m-network, then plain Atari 16k. -/
def fingerprint16k (data : List Nat) : MapperChoice :=
  if fingerprintTigervision data then MapperChoice.tigervision
  else if fingerprintMnetwork data then MapperChoice.mnetwork
  else MapperChoice.atari16k

/-- fingerprint32k: tigervision, then plain Atari 32k. -/
def fingerprint32k (data : List Nat) : MapperChoice :=
  if fingerprintTigervision data then MapperChoice.tigervision
  else MapperChoice.atari32k

/-- Cartridge.fingerprint (chip_riot.go lines 177-256): Harmony, then
Supercharger fast-load, then 3E+, then the dispatch on image size.
`none` means some fingerprint function panicked. -/
def cartridgeFingerprint (data : List Nat) : Option MapperChoice :=
  match fingerprintHarmony data with
  | none => none
  | some true => some MapperChoice.dpcPlus
  | some false =>
    if fingerprintSuperchargerFastLoad data then some MapperChoice.superchargerAR
    else
      match fingerprint3ePlus data with
      | none => none
      | some true => some MapperChoice.the3ePlus
      | some false =>
        match data.length with
        | 2048 => some MapperChoice.atari2k
        | 4096 => some MapperChoice.atari4k
        | 8192 => some (fingerprint8k data)
        | 10240 => some MapperChoice.dpc
        | 10495 => some MapperChoice.dpc
        | 12288 => some MapperChoice.cbs
        | 16384 => some (fingerprint16k data)
        | 32768 => some (fingerprint32k data)
        | 65536 => some MapperChoice.err65536
        | _ => some MapperChoice.errUnrecognisedSize

/-! ## Parker Bros (E0) mapper (mapper_parkerbros.go)

The mapper has eight 1 KiB banks and four segments; the last segment is
fixed to the last bank on `Initialise`.  The Go fixed-size array
`segment [4]int` is rendered as four fields; the bank slices as a list
of byte lists.  `Read`, `Write` and `hotspot` are direct translations
(including the `addr&0x3dd` quirk in the poke path of `Write` and the
fact that `Write` returns a `MemoryBusError` even after a poke). -/

/-- Parker Bros mapper state. -/
structure ParkerBros where
  banks : List (List Nat)
  segment0 : Nat
  segment1 : Nat
  segment2 : Nat
  segment3 : Nat
  deriving DecidableEq, Repr

/-- parkerBros.Initialise: segments point at the last four banks. -/
def ParkerBros.initSegments (c : ParkerBros) : ParkerBros :=
  { c with segment0 := 4, segment1 := 5, segment2 := 6, segment3 := 7 }

/-- newParkerBros: the data must be exactly 8 * 1024 bytes; it is split
into eight banks and the segments initialised. -/
def newParkerBros (data : List Nat) : Option ParkerBros :=
  if data.length = 8192 then
    some (ParkerBros.initSegments
      { banks := (List.range 8).map (fun k => (data.drop (k * 1024)).take 1024)
        segment0 := 0, segment1 := 0, segment2 := 0, segment3 := 0 })
  else none

/-- parkerBros.hotspot (lines 137-203): a bank-switching access.
Returns the updated state and whether the address was a hotspot.  The
Go `switch addr` over the twenty-four hotspot values is rendered as
the equivalent chain of equality tests. -/
def ParkerBros.hotspot (c : ParkerBros) (addr : Nat) (passive : Bool) :
    ParkerBros × Bool :=
  if 0xfe0 ≤ addr ∧ addr ≤ 0xff7 then
    if passive then (c, true)
    else
      let c :=
        if addr = 0x0fe0 then { c with segment0 := 0 }
        else if addr = 0x0fe1 then { c with segment0 := 1 }
        else if addr = 0x0fe2 then { c with segment0 := 2 }
        else if addr = 0x0fe3 then { c with segment0 := 3 }
        else if addr = 0x0fe4 then { c with segment0 := 4 }
        else if addr = 0x0fe5 then { c with segment0 := 5 }
        else if addr = 0x0fe6 then { c with segment0 := 6 }
        else if addr = 0x0fe7 then { c with segment0 := 7 }
        else if addr = 0x0fe8 then { c with segment1 := 0 }
        else if addr = 0x0fe9 then { c with segment1 := 1 }
        else if addr = 0x0fea then { c with segment1 := 2 }
        else if addr = 0x0feb then { c with segment1 := 3 }
        else if addr = 0x0fec then { c with segment1 := 4 }
        else if addr = 0x0fed then { c with segment1 := 5 }
        else if addr = 0x0fee then { c with segment1 := 6 }
        else if addr = 0x0fef then { c with segment1 := 7 }
        else if addr = 0x0ff0 then { c with segment2 := 0 }
        else if addr = 0x0ff1 then { c with segment2 := 1 }
        else if addr = 0x0ff2 then { c with segment2 := 2 }
        else if addr = 0x0ff3 then { c with segment2 := 3 }
        else if addr = 0x0ff4 then { c with segment2 := 4 }
        else if addr = 0x0ff5 then { c with segment2 := 5 }
        else if addr = 0x0ff6 then { c with segment2 := 6 }
        else if addr = 0x0ff7 then { c with segment2 := 7 }
        else c
      (c, true)
  else (c, false)

/-- parkerBros.Read (lines 97-113).  A hotspot access returns 0; the
slice indexing `cart.banks[cart.segment[k]][addr&0x03ff]` is rendered
with `getD` defaults (unreachable for a well-formed mapper state). -/
def ParkerBros.Read (c : ParkerBros) (addr : Nat) (passive : Bool) :
    ParkerBros × Nat :=
  let (c, hit) := c.hotspot addr passive
  if hit then (c, 0)
  else
    let data :=
      if addr ≤ 0x03ff then (c.banks.getD c.segment0 []).getD (addr &&& 0x03ff) 0
      else if 0x0400 ≤ addr ∧ addr ≤ 0x07ff then
        (c.banks.getD c.segment1 []).getD (addr &&& 0x03ff) 0
      else if 0x0800 ≤ addr ∧ addr ≤ 0x0bff then
        (c.banks.getD c.segment2 []).getD (addr &&& 0x03ff) 0
      else if 0x0c00 ≤ addr ∧ addr ≤ 0x0fff then
        (c.banks.getD c.segment3 []).getD (addr &&& 0x03ff) 0
      else 0
    (c, data)

/-- Update the byte at `i` of bank number `n` of the mapper. -/
def ParkerBros.setBankByte (c : ParkerBros) (n i v : Nat) : ParkerBros :=
  { c with banks := c.banks.set n ((c.banks.getD n []).set i v) }

/-- parkerBros.Write (lines 116-134): a hotspot access succeeds with no
error; otherwise a poke mutates the selected bank at `addr&0x3dd` (the
mask as written in the source), and the function always returns a
`MemoryBusError`. -/
def ParkerBros.Write (c : ParkerBros) (addr : Nat) (data : Nat)
    (passive poke : Bool) : ParkerBros × Bool :=
  let (c, hit) := c.hotspot addr passive
  if hit then (c, false)
  else
    let c :=
      if poke then
        if addr ≤ 0x03ff then c.setBankByte c.segment0 (addr &&& 0x3dd) data
        else if 0x0400 ≤ addr ∧ addr ≤ 0x07ff then
          c.setBankByte c.segment1 (addr &&& 0x3dd) data
        else if 0x0800 ≤ addr ∧ addr ≤ 0x0bff then
          c.setBankByte c.segment2 (addr &&& 0x3dd) data
        else if 0x0c00 ≤ addr ∧ addr ≤ 0x0fff then
          c.setBankByte c.segment3 (addr &&& 0x3dd) data
        else c
      else c
    (c, true)

/-! ## TIA control state machine (tia.go)

The embedding covers the fields of the `TIA` struct that drive WSYNC,
HBLANK, HMOVE and the scanline structure: `videoCycles`, the signal
latches, `Hblank`, `wsync`, `HmoveLatch`, `HmoveCt`, the phase clock,
the hsync counter, and the six delayed-event slots.  The video and
audio sub-systems (sprites, playfield, pixels) are not embedded: in
`tia.Step` they only consume this control state and produce the pixel,
they never write any of the fields above.

The `phaseclock`, `polycounter` and `delay` packages are not in the
provided sources.  They are modelled from the specification:

* Modelled from the spec: `phaseclock` — a four-state cyclic counter
  with phases numbered 0..3; `Tick` advances one phase (mod 4), `Phi2`
  is true exactly at phase 2, `Reset` sets phase 0 and `Align` sets the
  next rising edge of phase 1.
* Modelled from the spec: `polycounter` — the 6-bit hsync polycounter
  is rendered by the index of its count in the LFSR sequence; `Tick`
  advances the index and `Reset` returns to index 0.  (`tia.Step`
  resets the counter at count 57, so the LFSR wrap is never reached.)
* Modelled from the spec: `delay.Event` — a slot holds the number of
  remaining ticks (0 = resolved/inactive).  `Schedule(d)` stores
  `d + 1`; `Tick` decrements an active slot and fires its payload when
  the remainder reaches 0.  An event scheduled from `UpdateTIA` (which
  runs before the tick phase of the same `Step`) therefore fires during
  the event phase of `Step` number `d` after the write, and an event
  scheduled from an hsync decode (which runs after the tick phase)
  fires during the event phase of `Step` number `d + 1` after the
  decode.  `IsActive` is `remaining > 0`.

With this rendering the specification's own scanline invariant
(HBLANK on during color clocks 0-67, or 0-75 under HMOVE) is
reproduced exactly by the embedded `tia.Step`, which is the
consistency check for the modelled timing. -/

/-- Payload of the shared `futureHsync` delay slot. -/
inductive HsyncEv where
  | evNewScanline
  | evResetHsync
  | evResetCburst
  | evHblankOff
  deriving DecidableEq, Repr

/-- Names of the chip-bus writes serviced by `TIA.UpdateTIA`.  `other`
stands for every register serviced further down the `tia.Step` update
chain (video and audio registers). -/
inductive TIAReg where
  | VSYNC
  | VBLANK
  | WSYNC
  | RSYNC
  | HMOVE
  | other
  deriving DecidableEq, Repr

/-- A `bus.ChipData` value: register name and written value. -/
structure TIAChipData where
  name : TIAReg
  value : Nat
  deriving DecidableEq, Repr

/-- The TIA control state. -/
structure TIAState where
  videoCycles : Nat
  sigVSync : Bool
  sigVBlank : Bool
  sigHSync : Bool
  sigCBurst : Bool
  hblank : Bool
  wsync : Bool
  hmoveLatch : Bool
  hmoveCt : Nat
  pclk : Nat
  hsync : Nat
  futVblankRem : Nat
  futVblankVal : Nat
  futRsyncAlignRem : Nat
  futRsyncResetRem : Nat
  futHmoveLatchRem : Nat
  futHmoveRem : Nat
  futHsyncRem : Nat
  futHsyncEv : HsyncEv
  deriving DecidableEq, Repr

/-- Modelled from the spec: `PhaseClock.Phi2` is true exactly at phase 2
of the four phases. -/
def phi2 (p : Nat) : Bool := p = 2

/-- Modelled from the spec: scheduling a `delay.Event` with delay `d`
stores `d + 1` remaining ticks. -/
def schedRem (d : Nat) : Nat := d + 1

/-- The delay scheduled for the HMOVE latch by `TIA.UpdateTIA` (lines
236-245): a sparse switch on the phase-clock count. -/
def hmoveDelay : Nat → Nat
  | 0 => 5
  | 1 => 4
  | 2 => 4
  | 3 => 2
  | _ + 4 => 0

/-- TIA.newScanline (lines 277-295): conclude WSYNC, raise HBLANK,
reset the video-cycle count. -/
def TIAState.newScanline (s : TIAState) : TIAState :=
  { s with wsync := false, hblank := true, videoCycles := 0 }

/-- TIA.UpdateTIA (lines 146-275): service a chip-bus write.  `VSYNC`
latches bit 1 into the signal; `VBLANK` is delayed by one cycle;
`WSYNC` raises the wsync flag; `RSYNC` aligns the phase clock and
schedules the two RSYNC events; `HMOVE` schedules the latch after the
phase-dependent delay and the counter load three clocks later.  Any
other register is left to the video/audio update chain. -/
def TIAState.updateTIA (s : TIAState) (d : TIAChipData) : TIAState :=
  match d.name with
  | TIAReg.VSYNC => { s with sigVSync := d.value &&& 0x02 = 0x02 }
  | TIAReg.VBLANK => { s with futVblankRem := schedRem 1, futVblankVal := d.value }
  | TIAReg.WSYNC => { s with wsync := true }
  | TIAReg.RSYNC =>
    { s with pclk := 1, futRsyncAlignRem := schedRem 3, futRsyncResetRem := schedRem 7 }
  | TIAReg.HMOVE =>
    { s with futHmoveLatchRem := schedRem (hmoveDelay s.pclk),
             futHmoveRem := schedRem (hmoveDelay s.pclk + 3) }
  | TIAReg.other => s

/-- Tick of the `futureVblank` slot; on firing, the delayed value is
latched into the VBLANK signal.  (The paddle-ground and fire-latch
bits written on the same firing live in the input package and are not
part of the TIA state.) -/
def tickVblank (s : TIAState) : TIAState :=
  if s.futVblankRem = 0 then s
  else if s.futVblankRem = 1 then
    { s with futVblankRem := 0, sigVBlank := s.futVblankVal &&& 0x02 = 0x02 }
  else { s with futVblankRem := s.futVblankRem - 1 }

/-- Tick of the `futureRsyncAlign` slot; on firing, a new scanline
begins.  (The sprite adjustment `Video.RSYNC` is video-subsystem state
and is not embedded.) -/
def tickRsyncAlign (s : TIAState) : TIAState :=
  if s.futRsyncAlignRem = 0 then s
  else if s.futRsyncAlignRem = 1 then
    TIAState.newScanline { s with futRsyncAlignRem := 0 }
  else { s with futRsyncAlignRem := s.futRsyncAlignRem - 1 }

/-- Tick of the `futureRsyncReset` slot; on firing, hsync counter and
phase clock reset. -/
def tickRsyncReset (s : TIAState) : TIAState :=
  if s.futRsyncResetRem = 0 then s
  else if s.futRsyncResetRem = 1 then
    { s with futRsyncResetRem := 0, hsync := 0, pclk := 0 }
  else { s with futRsyncResetRem := s.futRsyncResetRem - 1 }

/-- Tick of the `futureHmoveLatch` slot; on firing, the HMOVE latch is
set. -/
def tickHmoveLatch (s : TIAState) : TIAState :=
  if s.futHmoveLatchRem = 0 then s
  else if s.futHmoveLatchRem = 1 then
    { s with futHmoveLatchRem := 0, hmoveLatch := true }
  else { s with futHmoveLatchRem := s.futHmoveLatchRem - 1 }

/-- Tick of the `FutureHmove` slot; on firing, the HMOVE counter is
loaded with 15.  (`PrepareSpritesForHMOVE` is video-subsystem state.) -/
def tickHmove (s : TIAState) : TIAState :=
  if s.futHmoveRem = 0 then s
  else if s.futHmoveRem = 1 then
    { s with futHmoveRem := 0, hmoveCt := 15 }
  else { s with futHmoveRem := s.futHmoveRem - 1 }

/-- Tick of the shared `futureHsync` slot; on firing, the stored decode
payload is applied. -/
def tickHsyncSlot (s : TIAState) : TIAState :=
  if s.futHsyncRem = 0 then s
  else if s.futHsyncRem = 1 then
    match s.futHsyncEv with
    | HsyncEv.evNewScanline => TIAState.newScanline { s with futHsyncRem := 0 }
    | HsyncEv.evResetHsync => { s with futHsyncRem := 0, sigHSync := false, sigCBurst := true }
    | HsyncEv.evResetCburst => { s with futHsyncRem := 0, sigCBurst := false }
    | HsyncEv.evHblankOff => { s with futHsyncRem := 0, hblank := false }
  else { s with futHsyncRem := s.futHsyncRem - 1 }

/-- The event phase of `tia.Step`: all six delay slots tick, in the
order they appear in the source. -/
def tickAllEvents (s : TIAState) : TIAState :=
  tickHsyncSlot (tickHmove (tickHmoveLatch (tickRsyncReset (tickRsyncAlign (tickVblank s)))))

/-- The hsync phase of `tia.Step` (lines 339-433): on a rising Phi2 the
hsync counter ticks and its decodes are evaluated — reset and HMOVE
latch clear at 57, the new-scanline schedule at 56 ([SHB], suppressed
while an RSYNC is in flight), HSYNC set at 4 ([SHS]), HSYNC reset at 8
([RHS]), color burst reset at 12 ([RCB]), and the early/late HBLANK
reset at 16 ([RHB]) / 18 ([LRHB]) depending on the HMOVE latch.  All
the delayed decodes use `hsyncDelay = 3`. -/
def hsyncPhase (s : TIAState) : TIAState :=
  if phi2 s.pclk then
    if s.hsync + 1 = 57 then { s with hsync := 0, hmoveLatch := false }
    else if s.hsync + 1 = 56 then
      if s.futRsyncAlignRem = 0 then
        { s with hsync := s.hsync + 1, futHsyncRem := schedRem 3,
                 futHsyncEv := HsyncEv.evNewScanline }
      else { s with hsync := s.hsync + 1 }
    else if s.hsync + 1 = 4 then { s with hsync := s.hsync + 1, sigHSync := true }
    else if s.hsync + 1 = 8 then
      { s with hsync := s.hsync + 1, futHsyncRem := schedRem 3,
               futHsyncEv := HsyncEv.evResetHsync }
    else if s.hsync + 1 = 12 then
      { s with hsync := s.hsync + 1, futHsyncRem := schedRem 3,
               futHsyncEv := HsyncEv.evResetCburst }
    else if s.hsync + 1 = 16 then
      if !s.hmoveLatch then
        { s with hsync := s.hsync + 1, futHsyncRem := schedRem 3,
                 futHsyncEv := HsyncEv.evHblankOff }
      else { s with hsync := s.hsync + 1 }
    else if s.hsync + 1 = 18 then
      if s.hmoveLatch then
        { s with hsync := s.hsync + 1, futHsyncRem := schedRem 3,
                 futHsyncEv := HsyncEv.evHblankOff }
      else { s with hsync := s.hsync + 1 }
    else { s with hsync := s.hsync + 1 }
  else s

/-- The HMOVE-counter phase of `tia.Step` (lines 451-465): on Phi2 an
active counter (anything but 0xff) decrements, wrapping 0 to 0xff as
the Go `uint8` decrement does. -/
def hmoveCtPhase (s : TIAState) : TIAState :=
  if phi2 s.pclk ∧ s.hmoveCt ≠ 0xff then
    { s with hmoveCt := (s.hmoveCt + 255) % 256 }
  else s

/-- The video-cycle count and phase-clock advance at the top of
`tia.Step`, before the delayed events tick. -/
def preTick (s : TIAState) : TIAState :=
  { s with videoCycles := s.videoCycles + 1, pclk := (s.pclk + 1) % 4 }

/-- The phases of `tia.Step` that follow the update phase and the
phase-clock tick: delayed events, hsync decodes, HMOVE counter. -/
def stepCore (s : TIAState) : TIAState :=
  hmoveCtPhase (hsyncPhase (tickAllEvents s))

/-- TIA.Step (lines 299-502) restricted to the control state: count the
video cycle, service the chip-bus write if one arrived, tick the phase
clock, tick the delayed events, evaluate the hsync counter, update the
HMOVE counter, and report `!wsync` (the value the orchestrator stores
in the CPU RDY flag).  Pixel resolution and the television signal are
not part of the control state. -/
def stepTIA (s : TIAState) (d : Option TIAChipData) : TIAState × Bool :=
  let s := { s with videoCycles := s.videoCycles + 1 }
  let s := match d with
    | some cd => s.updateTIA cd
    | none => s
  let s := { s with pclk := (s.pclk + 1) % 4 }
  let s := stepCore s
  (s, !s.wsync)

/-- Iterated `tia.Step` with no chip-bus activity. -/
def iterTIA : Nat → TIAState → TIAState
  | 0, s => s
  | n + 1, s => (stepTIA (iterTIA n s) none).1

/-- The state constructed by `NewTIA`: HBLANK on, phase clock reset
(phase 0, modelled from the spec), hsync counter at 0, HMOVE counter
inactive at 0xff, no delayed events pending. -/
def initTIA : TIAState where
  videoCycles := 0
  sigVSync := false
  sigVBlank := false
  sigHSync := false
  sigCBurst := false
  hblank := true
  wsync := false
  hmoveLatch := false
  hmoveCt := 0xff
  pclk := 0
  hsync := 0
  futVblankRem := 0
  futVblankVal := 0
  futRsyncAlignRem := 0
  futRsyncResetRem := 0
  futHmoveLatchRem := 0
  futHmoveRem := 0
  futHsyncRem := 0
  futHsyncEv := HsyncEv.evNewScanline

/-- The canonical scanline-start state: the state of the TIA at the end
of the video cycle in which the [SHB]-scheduled new-scanline event has
just fired and the hsync counter has just wrapped (color clock 0 of a
scanline in steady operation). -/
def scanlineStart : TIAState where
  videoCycles := 0
  sigVSync := false
  sigVBlank := false
  sigHSync := false
  sigCBurst := false
  hblank := true
  wsync := false
  hmoveLatch := false
  hmoveCt := 0xff
  pclk := 2
  hsync := 0
  futVblankRem := 0
  futVblankVal := 0
  futRsyncAlignRem := 0
  futRsyncResetRem := 0
  futHmoveLatchRem := 0
  futHmoveRem := 0
  futHsyncRem := 0
  futHsyncEv := HsyncEv.evNewScanline

/-- Run `n` video cycles from `s`, feeding chip-bus data `d1` into the
first cycle only; the result is the list of `(state, rdy)` pairs in
reverse order (most recent first), sharing the computation of the
whole trace. -/
def runTIA (s : TIAState) (d1 : Option TIAChipData) : Nat → List (TIAState × Bool)
  | 0 => []
  | 1 => [stepTIA s d1]
  | n + 2 =>
    match runTIA s d1 (n + 1) with
    | [] => []
    | p :: ps => stepTIA p.1 none :: p :: ps

/-! ## VCS orchestrator (part_002, `VCS.Step` / `cycleVCS`)

`VCS.Step` asks the CPU to execute one instruction; the CPU invokes
`cycleVCS` once per CPU cycle, and after the CPU returns the
orchestrator keeps invoking `cycleVCS` while the RDY flag is low.  The
RIOT and TIA of that source revision are not in the provided sources,
so their per-cycle step functions are parameters of the embedding: the
claim is about the order and multiplicity of the component steps, which
is determined entirely by `cycleVCS` and the `Step` loop.  The number
of CPU cycles the instruction takes (`ExecuteInstruction` invoking the
callback) is the parameter `n`, and the RDY recovery loop carries
explicit fuel. -/

/-- Component steps observable in the orchestrator trace. -/
inductive VCSAction where
  | runRiot
  | runTia
  deriving DecidableEq, Repr

/-- The per-CPU-cycle action pattern of `cycleVCS`: RIOT once, then
three TIA video cycles. -/
def cyclePattern : List VCSAction := [VCSAction.runRiot, VCSAction.runTia, VCSAction.runTia, VCSAction.runTia]

/-- A VCS state over abstract RIOT and TIA component states: the two
components and the CPU RDY flag. -/
structure VCSSt (R T : Type) where
  riot : R
  tia : T
  rdy : Bool

/-- cycleVCS (part_002 lines 113-135): step the RIOT once
(`ReadRIOTMemory` folded into the step function), then run three TIA
video cycles, storing the returned RDY value after each; the emitted
action list records the order. -/
def cycleVCS {R T : Type} (riotStep : R → R) (tiaStep : T → T × Bool)
    (s : VCSSt R T) : VCSSt R T × List VCSAction :=
  let r := riotStep s.riot
  let t1 := tiaStep s.tia
  let t2 := tiaStep t1.1
  let t3 := tiaStep t2.1
  (⟨r, t3.1, t3.2⟩, cyclePattern)

/-- The instruction phase of `VCS.Step`: the CPU invokes the callback
once per CPU cycle, `n` times. -/
def instrPhase {R T : Type} (riotStep : R → R) (tiaStep : T → T × Bool) :
    Nat → VCSSt R T → VCSSt R T × List VCSAction
  | 0, s => (s, [])
  | n + 1, s =>
    let c := cycleVCS riotStep tiaStep s
    let rest := instrPhase riotStep tiaStep n c.1
    (rest.1, c.2 ++ rest.2)

/-- The WSYNC recovery loop of `VCS.Step` (lines 144-146): keep calling
`cycleVCS` while the RDY flag is low, with explicit fuel. -/
def wsyncLoop {R T : Type} (riotStep : R → R) (tiaStep : T → T × Bool) :
    Nat → VCSSt R T → VCSSt R T × List VCSAction
  | 0, s => (s, [])
  | fuel + 1, s =>
    if s.rdy then (s, [])
    else
      let c := cycleVCS riotStep tiaStep s
      let rest := wsyncLoop riotStep tiaStep fuel c.1
      (rest.1, c.2 ++ rest.2)

/-- VCS.Step (lines 101-149): the instruction phase followed by the
RDY recovery loop; the returned `Nat` is the `cpuCycles` count (number
of `cycleVCS` invocations). -/
def vcsStep {R T : Type} (riotStep : R → R) (tiaStep : T → T × Bool)
    (n fuel : Nat) (s : VCSSt R T) : VCSSt R T × List VCSAction × Nat :=
  let a := instrPhase riotStep tiaStep n s
  let b := wsyncLoop riotStep tiaStep fuel a.1
  (b.1, a.2 ++ b.2, n + b.2.length / 4)

/-! ## Concrete states and traces used by the claims -/

/-- A WSYNC chip-bus write. -/
def wsyncWr : TIAChipData := ⟨TIAReg.WSYNC, 0⟩

/-- An HMOVE chip-bus write. -/
def hmoveWr : TIAChipData := ⟨TIAReg.HMOVE, 0⟩

/-- Hand controller zero in paddle mode with resistance 0.5 (the value
`PaddleSet 0.5` produces: `1.0 - 0.5`), empty capacitor and zeroed
accumulator. -/
def paddleHc : HandController :=
  { newHandController0 false with
      which := ControllerType.PaddleType
      paddleResistance := f32Half }

/-- An 8 KiB all-zero ROM image. -/
def zeros8k : List Nat := List.replicate 8192 0

/-- A Parker Bros mapper whose bank `k` is 1024 copies of the byte `k`,
with the segments as initialised. -/
def parkerBrosW : ParkerBros where
  banks := (List.range 8).map (fun k => List.replicate 1024 k)
  segment0 := 4
  segment1 := 5
  segment2 := 6
  segment3 := 7

/-- A 36-byte image whose final byte is 0x85 and which matches no
fingerprint: `fingerprint3ePlus` reads past its end. -/
def short85 : List Nat := List.replicate 35 0 ++ [0x85]


/-! ### Chunk-boundary states for the concrete scanline traces

The kernel evaluates the TIA model in chunks of at most 30 video
cycles; these literals are the states at the chunk boundaries. -/

/-- State 30 cycles into the steady scanline (no chip-bus activity). -/
def scanA30 : TIAState :=
  { videoCycles := 30,
    sigVSync := false,
    sigVBlank := false,
    sigHSync := true,
    sigCBurst := false,
    hblank := true,
    wsync := false,
    hmoveLatch := false,
    hmoveCt := 255,
    pclk := 0,
    hsync := 7,
    futVblankRem := 0,
    futVblankVal := 0,
    futRsyncAlignRem := 0,
    futRsyncResetRem := 0,
    futHmoveLatchRem := 0,
    futHmoveRem := 0,
    futHsyncRem := 0,
    futHsyncEv := HsyncEv.evNewScanline }

/-- State 60 cycles into the steady scanline (no chip-bus activity). -/
def scanA60 : TIAState :=
  { videoCycles := 60,
    sigVSync := false,
    sigVBlank := false,
    sigHSync := false,
    sigCBurst := false,
    hblank := true,
    wsync := false,
    hmoveLatch := false,
    hmoveCt := 255,
    pclk := 2,
    hsync := 15,
    futVblankRem := 0,
    futVblankVal := 0,
    futRsyncAlignRem := 0,
    futRsyncResetRem := 0,
    futHmoveLatchRem := 0,
    futHmoveRem := 0,
    futHsyncRem := 0,
    futHsyncEv := HsyncEv.evResetCburst }

/-- State 90 cycles into the steady scanline (no chip-bus activity). -/
def scanA90 : TIAState :=
  { videoCycles := 90,
    sigVSync := false,
    sigVBlank := false,
    sigHSync := false,
    sigCBurst := false,
    hblank := false,
    wsync := false,
    hmoveLatch := false,
    hmoveCt := 255,
    pclk := 0,
    hsync := 22,
    futVblankRem := 0,
    futVblankVal := 0,
    futRsyncAlignRem := 0,
    futRsyncResetRem := 0,
    futHmoveLatchRem := 0,
    futHmoveRem := 0,
    futHsyncRem := 0,
    futHsyncEv := HsyncEv.evHblankOff }

/-- State 120 cycles into the steady scanline (no chip-bus activity). -/
def scanA120 : TIAState :=
  { videoCycles := 120,
    sigVSync := false,
    sigVBlank := false,
    sigHSync := false,
    sigCBurst := false,
    hblank := false,
    wsync := false,
    hmoveLatch := false,
    hmoveCt := 255,
    pclk := 2,
    hsync := 30,
    futVblankRem := 0,
    futVblankVal := 0,
    futRsyncAlignRem := 0,
    futRsyncResetRem := 0,
    futHmoveLatchRem := 0,
    futHmoveRem := 0,
    futHsyncRem := 0,
    futHsyncEv := HsyncEv.evHblankOff }

/-- State 150 cycles into the steady scanline (no chip-bus activity). -/
def scanA150 : TIAState :=
  { videoCycles := 150,
    sigVSync := false,
    sigVBlank := false,
    sigHSync := false,
    sigCBurst := false,
    hblank := false,
    wsync := false,
    hmoveLatch := false,
    hmoveCt := 255,
    pclk := 0,
    hsync := 37,
    futVblankRem := 0,
    futVblankVal := 0,
    futRsyncAlignRem := 0,
    futRsyncResetRem := 0,
    futHmoveLatchRem := 0,
    futHmoveRem := 0,
    futHsyncRem := 0,
    futHsyncEv := HsyncEv.evHblankOff }

/-- State 180 cycles into the steady scanline (no chip-bus activity). -/
def scanA180 : TIAState :=
  { videoCycles := 180,
    sigVSync := false,
    sigVBlank := false,
    sigHSync := false,
    sigCBurst := false,
    hblank := false,
    wsync := false,
    hmoveLatch := false,
    hmoveCt := 255,
    pclk := 2,
    hsync := 45,
    futVblankRem := 0,
    futVblankVal := 0,
    futRsyncAlignRem := 0,
    futRsyncResetRem := 0,
    futHmoveLatchRem := 0,
    futHmoveRem := 0,
    futHsyncRem := 0,
    futHsyncEv := HsyncEv.evHblankOff }

/-- State 210 cycles into the steady scanline (no chip-bus activity). -/
def scanA210 : TIAState :=
  { videoCycles := 210,
    sigVSync := false,
    sigVBlank := false,
    sigHSync := false,
    sigCBurst := false,
    hblank := false,
    wsync := false,
    hmoveLatch := false,
    hmoveCt := 255,
    pclk := 0,
    hsync := 52,
    futVblankRem := 0,
    futVblankVal := 0,
    futRsyncAlignRem := 0,
    futRsyncResetRem := 0,
    futHmoveLatchRem := 0,
    futHmoveRem := 0,
    futHsyncRem := 0,
    futHsyncEv := HsyncEv.evHblankOff }

/-- State 9 cycles into the steady scanline, before the WSYNC write. -/
def wsyncS9 : TIAState :=
  { videoCycles := 9,
    sigVSync := false,
    sigVBlank := false,
    sigHSync := false,
    sigCBurst := false,
    hblank := true,
    wsync := false,
    hmoveLatch := false,
    hmoveCt := 255,
    pclk := 3,
    hsync := 2,
    futVblankRem := 0,
    futVblankVal := 0,
    futRsyncAlignRem := 0,
    futRsyncResetRem := 0,
    futHmoveLatchRem := 0,
    futHmoveRem := 0,
    futHsyncRem := 0,
    futHsyncEv := HsyncEv.evNewScanline }

/-- State after the WSYNC write cycle (cycle 10 of the scanline). -/
def wsyncW1 : TIAState :=
  { videoCycles := 10,
    sigVSync := false,
    sigVBlank := false,
    sigHSync := false,
    sigCBurst := false,
    hblank := true,
    wsync := true,
    hmoveLatch := false,
    hmoveCt := 255,
    pclk := 0,
    hsync := 2,
    futVblankRem := 0,
    futVblankVal := 0,
    futRsyncAlignRem := 0,
    futRsyncResetRem := 0,
    futHmoveLatchRem := 0,
    futHmoveRem := 0,
    futHsyncRem := 0,
    futHsyncEv := HsyncEv.evNewScanline }

/-- State 30 cycles after the WSYNC write cycle. -/
def wsyncC30 : TIAState :=
  { videoCycles := 40,
    sigVSync := false,
    sigVBlank := false,
    sigHSync := false,
    sigCBurst := true,
    hblank := true,
    wsync := true,
    hmoveLatch := false,
    hmoveCt := 255,
    pclk := 2,
    hsync := 10,
    futVblankRem := 0,
    futVblankVal := 0,
    futRsyncAlignRem := 0,
    futRsyncResetRem := 0,
    futHmoveLatchRem := 0,
    futHmoveRem := 0,
    futHsyncRem := 0,
    futHsyncEv := HsyncEv.evResetHsync }

/-- State 60 cycles after the WSYNC write cycle. -/
def wsyncC60 : TIAState :=
  { videoCycles := 70,
    sigVSync := false,
    sigVBlank := false,
    sigHSync := false,
    sigCBurst := false,
    hblank := false,
    wsync := true,
    hmoveLatch := false,
    hmoveCt := 255,
    pclk := 0,
    hsync := 17,
    futVblankRem := 0,
    futVblankVal := 0,
    futRsyncAlignRem := 0,
    futRsyncResetRem := 0,
    futHmoveLatchRem := 0,
    futHmoveRem := 0,
    futHsyncRem := 0,
    futHsyncEv := HsyncEv.evHblankOff }

/-- State 90 cycles after the WSYNC write cycle. -/
def wsyncC90 : TIAState :=
  { videoCycles := 100,
    sigVSync := false,
    sigVBlank := false,
    sigHSync := false,
    sigCBurst := false,
    hblank := false,
    wsync := true,
    hmoveLatch := false,
    hmoveCt := 255,
    pclk := 2,
    hsync := 25,
    futVblankRem := 0,
    futVblankVal := 0,
    futRsyncAlignRem := 0,
    futRsyncResetRem := 0,
    futHmoveLatchRem := 0,
    futHmoveRem := 0,
    futHsyncRem := 0,
    futHsyncEv := HsyncEv.evHblankOff }

/-- State 120 cycles after the WSYNC write cycle. -/
def wsyncC120 : TIAState :=
  { videoCycles := 130,
    sigVSync := false,
    sigVBlank := false,
    sigHSync := false,
    sigCBurst := false,
    hblank := false,
    wsync := true,
    hmoveLatch := false,
    hmoveCt := 255,
    pclk := 0,
    hsync := 32,
    futVblankRem := 0,
    futVblankVal := 0,
    futRsyncAlignRem := 0,
    futRsyncResetRem := 0,
    futHmoveLatchRem := 0,
    futHmoveRem := 0,
    futHsyncRem := 0,
    futHsyncEv := HsyncEv.evHblankOff }

/-- State 150 cycles after the WSYNC write cycle. -/
def wsyncC150 : TIAState :=
  { videoCycles := 160,
    sigVSync := false,
    sigVBlank := false,
    sigHSync := false,
    sigCBurst := false,
    hblank := false,
    wsync := true,
    hmoveLatch := false,
    hmoveCt := 255,
    pclk := 2,
    hsync := 40,
    futVblankRem := 0,
    futVblankVal := 0,
    futRsyncAlignRem := 0,
    futRsyncResetRem := 0,
    futHmoveLatchRem := 0,
    futHmoveRem := 0,
    futHsyncRem := 0,
    futHsyncEv := HsyncEv.evHblankOff }

/-- State 180 cycles after the WSYNC write cycle. -/
def wsyncC180 : TIAState :=
  { videoCycles := 190,
    sigVSync := false,
    sigVBlank := false,
    sigHSync := false,
    sigCBurst := false,
    hblank := false,
    wsync := true,
    hmoveLatch := false,
    hmoveCt := 255,
    pclk := 0,
    hsync := 47,
    futVblankRem := 0,
    futVblankVal := 0,
    futRsyncAlignRem := 0,
    futRsyncResetRem := 0,
    futHmoveLatchRem := 0,
    futHmoveRem := 0,
    futHsyncRem := 0,
    futHsyncEv := HsyncEv.evHblankOff }

/-- State 210 cycles after the WSYNC write cycle. -/
def wsyncC210 : TIAState :=
  { videoCycles := 220,
    sigVSync := false,
    sigVBlank := false,
    sigHSync := false,
    sigCBurst := false,
    hblank := false,
    wsync := true,
    hmoveLatch := false,
    hmoveCt := 255,
    pclk := 2,
    hsync := 55,
    futVblankRem := 0,
    futVblankVal := 0,
    futRsyncAlignRem := 0,
    futRsyncResetRem := 0,
    futHmoveLatchRem := 0,
    futHmoveRem := 0,
    futHsyncRem := 0,
    futHsyncEv := HsyncEv.evHblankOff }

/-- State after the HMOVE write cycle (cycle 1 of the scanline). -/
def hmoveH1 : TIAState :=
  { videoCycles := 1,
    sigVSync := false,
    sigVBlank := false,
    sigHSync := false,
    sigCBurst := false,
    hblank := true,
    wsync := false,
    hmoveLatch := false,
    hmoveCt := 255,
    pclk := 3,
    hsync := 0,
    futVblankRem := 0,
    futVblankVal := 0,
    futRsyncAlignRem := 0,
    futRsyncResetRem := 0,
    futHmoveLatchRem := 4,
    futHmoveRem := 7,
    futHsyncRem := 0,
    futHsyncEv := HsyncEv.evNewScanline }

/-- State 30 cycles into the scanline whose first cycle carries the HMOVE write. -/
def hmoveB30 : TIAState :=
  { videoCycles := 30,
    sigVSync := false,
    sigVBlank := false,
    sigHSync := true,
    sigCBurst := false,
    hblank := true,
    wsync := false,
    hmoveLatch := true,
    hmoveCt := 9,
    pclk := 0,
    hsync := 7,
    futVblankRem := 0,
    futVblankVal := 0,
    futRsyncAlignRem := 0,
    futRsyncResetRem := 0,
    futHmoveLatchRem := 0,
    futHmoveRem := 0,
    futHsyncRem := 0,
    futHsyncEv := HsyncEv.evNewScanline }

/-- State 60 cycles into the scanline whose first cycle carries the HMOVE write. -/
def hmoveB60 : TIAState :=
  { videoCycles := 60,
    sigVSync := false,
    sigVBlank := false,
    sigHSync := false,
    sigCBurst := false,
    hblank := true,
    wsync := false,
    hmoveLatch := true,
    hmoveCt := 1,
    pclk := 2,
    hsync := 15,
    futVblankRem := 0,
    futVblankVal := 0,
    futRsyncAlignRem := 0,
    futRsyncResetRem := 0,
    futHmoveLatchRem := 0,
    futHmoveRem := 0,
    futHsyncRem := 0,
    futHsyncEv := HsyncEv.evResetCburst }

/-- State 90 cycles into the scanline whose first cycle carries the HMOVE write. -/
def hmoveB90 : TIAState :=
  { videoCycles := 90,
    sigVSync := false,
    sigVBlank := false,
    sigHSync := false,
    sigCBurst := false,
    hblank := false,
    wsync := false,
    hmoveLatch := true,
    hmoveCt := 255,
    pclk := 0,
    hsync := 22,
    futVblankRem := 0,
    futVblankVal := 0,
    futRsyncAlignRem := 0,
    futRsyncResetRem := 0,
    futHmoveLatchRem := 0,
    futHmoveRem := 0,
    futHsyncRem := 0,
    futHsyncEv := HsyncEv.evHblankOff }

/-- State 120 cycles into the scanline whose first cycle carries the HMOVE write. -/
def hmoveB120 : TIAState :=
  { videoCycles := 120,
    sigVSync := false,
    sigVBlank := false,
    sigHSync := false,
    sigCBurst := false,
    hblank := false,
    wsync := false,
    hmoveLatch := true,
    hmoveCt := 255,
    pclk := 2,
    hsync := 30,
    futVblankRem := 0,
    futVblankVal := 0,
    futRsyncAlignRem := 0,
    futRsyncResetRem := 0,
    futHmoveLatchRem := 0,
    futHmoveRem := 0,
    futHsyncRem := 0,
    futHsyncEv := HsyncEv.evHblankOff }

/-- State 150 cycles into the scanline whose first cycle carries the HMOVE write. -/
def hmoveB150 : TIAState :=
  { videoCycles := 150,
    sigVSync := false,
    sigVBlank := false,
    sigHSync := false,
    sigCBurst := false,
    hblank := false,
    wsync := false,
    hmoveLatch := true,
    hmoveCt := 255,
    pclk := 0,
    hsync := 37,
    futVblankRem := 0,
    futVblankVal := 0,
    futRsyncAlignRem := 0,
    futRsyncResetRem := 0,
    futHmoveLatchRem := 0,
    futHmoveRem := 0,
    futHsyncRem := 0,
    futHsyncEv := HsyncEv.evHblankOff }

/-- State 180 cycles into the scanline whose first cycle carries the HMOVE write. -/
def hmoveB180 : TIAState :=
  { videoCycles := 180,
    sigVSync := false,
    sigVBlank := false,
    sigHSync := false,
    sigCBurst := false,
    hblank := false,
    wsync := false,
    hmoveLatch := true,
    hmoveCt := 255,
    pclk := 2,
    hsync := 45,
    futVblankRem := 0,
    futVblankVal := 0,
    futRsyncAlignRem := 0,
    futRsyncResetRem := 0,
    futHmoveLatchRem := 0,
    futHmoveRem := 0,
    futHsyncRem := 0,
    futHsyncEv := HsyncEv.evHblankOff }

/-- State 210 cycles into the scanline whose first cycle carries the HMOVE write. -/
def hmoveB210 : TIAState :=
  { videoCycles := 210,
    sigVSync := false,
    sigVBlank := false,
    sigHSync := false,
    sigCBurst := false,
    hblank := false,
    wsync := false,
    hmoveLatch := true,
    hmoveCt := 255,
    pclk := 0,
    hsync := 52,
    futVblankRem := 0,
    futVblankVal := 0,
    futRsyncAlignRem := 0,
    futRsyncResetRem := 0,
    futHmoveLatchRem := 0,
    futHmoveRem := 0,
    futHsyncRem := 0,
    futHsyncEv := HsyncEv.evHblankOff }

/-! ## Theorems -/

/-! ### Fingerprinting helpers -/

/-- The tigervision threshold loop returns true exactly when the list
still contains at least `t` occurrences of the pair `85 3f`. -/
theorem fingerprintTigervisionLoop_iff (l : List Nat) :
    ∀ t, 1 ≤ t → (fingerprintTigervisionLoop l t = true ↔ t ≤ count853f l) := by
  induction l with
  | nil =>
    intro t ht
    have h1 : fingerprintTigervisionLoop [] t = false := rfl
    have h2 : count853f [] = 0 := rfl
    rw [h1, h2]
    simp
    omega
  | cons x xs ih =>
    cases xs with
    | nil =>
      intro t ht
      have h1 : fingerprintTigervisionLoop [x] t = false := rfl
      have h2 : count853f [x] = 0 := rfl
      rw [h1, h2]
      simp
      omega
    | cons y rest =>
      intro t ht
      by_cases hp : x = 0x85 ∧ y = 0x3f
      · rcases Nat.lt_or_ge t 2 with h2 | h2
        · have ht1 : t = 1 := by omega
          subst ht1
          simp only [fingerprintTigervisionLoop, count853f, if_pos hp]
          simp
        · have hne : ¬(t - 1 = 0) := by omega
          simp only [fingerprintTigervisionLoop, count853f, if_pos hp, if_neg hne]
          rw [ih (t - 1) (by omega)]
          omega
      · have hne : ¬(t = 0) := by omega
        simp only [fingerprintTigervisionLoop, count853f, if_neg hp, if_neg hne,
          Nat.zero_add]
        exact ih t ht

/-- An all-zero list never trips the 3E+ loop and never reads out of
range, as long as the two thresholds are not both already zero. -/
theorem fp3eLoop_zeros (l : List Nat) (hz : ∀ x ∈ l, x = 0) :
    ∀ t3e t3f, ¬(t3e = 0 ∧ t3f = 0) → fp3eLoop l t3e t3f = some false := by
  induction l with
  | nil => intro a b _; rfl
  | cons x xs ih =>
    have hx85 : ¬(x = 0x85) := by
      have := hz x (by simp)
      omega
    cases xs with
    | nil =>
      intro a b h
      simp only [fp3eLoop, if_neg hx85, if_neg h]
    | cons y rest =>
      intro a b h
      simp only [fp3eLoop, hx85, false_and, if_false, if_neg h]
      exact ih (fun z hm => hz z (by simp [hm])) a b h

/-- A list ending in the byte 0x85 makes the 3E+ loop read past the
end (panic) unless it returns true first: the result is never
`some false`. -/
theorem fp3eLoop_append85 (l : List Nat) :
    ∀ t3e t3f, fp3eLoop (l ++ [0x85]) t3e t3f ≠ some false := by
  induction l with
  | nil =>
    intro a b
    simp [fp3eLoop]
  | cons x xs ih =>
    cases xs with
    | nil =>
      intro a b
      simp only [List.cons_append, List.nil_append, fp3eLoop]
      generalize (if x = 0x85 ∧ (0x85 : Nat) = 0x3e then a - 1 else a) = a2
      generalize (if x = 0x85 ∧ (0x85 : Nat) = 0x3f then b - 1 else b) = b2
      split
      · simp
      · simp [fp3eLoop]
    | cons y rest =>
      intro a b
      simp only [List.cons_append, fp3eLoop]
      generalize (if x = 0x85 ∧ y = 0x3e then a - 1 else a) = a2
      generalize (if x = 0x85 ∧ y = 0x3f then b - 1 else b) = b2
      split
      · simp
      · exact ih _ _

/-- fingerprint8k selects the tigervision mapper exactly when the
tigervision fingerprint matches. -/
theorem fingerprint8k_tigervision (b : List Nat) :
    fingerprint8k b = MapperChoice.tigervision ↔ fingerprintTigervision b = true := by
  unfold fingerprint8k
  by_cases h : fingerprintTigervision b = true
  · simp [h]
  · simp only [Bool.not_eq_true] at h
    simp only [h]
    by_cases h2 : fingerprintParkerBros b = true
    · simp [h2]
    · simp only [Bool.not_eq_true] at h2
      simp [h2]

set_option maxRecDepth 8000

/-! ### C6 — tigervision fingerprint choice -/

/-- C6: for every 8192-byte image attached with automatic mapper
selection that matches neither the Harmony nor the 3E+ fingerprint
(the Supercharger fast-load test is false for this length by itself),
the Tigervision mapper is chosen if and only if the byte pair
`85 3f` occurs at least 5 times in the image. -/
theorem tigervision_chosen_iff_five_pairs (b : List Nat)
    (hlen : b.length = 8192)
    (hH : fingerprintHarmony b = some false)
    (h3e : fingerprint3ePlus b = some false) :
    (cartridgeFingerprint b = some MapperChoice.tigervision ↔ 5 ≤ count853f b) := by
  have hsc : fingerprintSuperchargerFastLoad b = false := by
    simp [fingerprintSuperchargerFastLoad, hlen]
  have h8k : cartridgeFingerprint b = some (fingerprint8k b) := by
    unfold cartridgeFingerprint
    rw [hH, hsc, h3e, hlen]
    rfl
  rw [h8k]
  have hopt : (some (fingerprint8k b) = some MapperChoice.tigervision) ↔
      fingerprint8k b = MapperChoice.tigervision := by simp
  rw [hopt, fingerprint8k_tigervision b]
  exact fingerprintTigervisionLoop_iff b 5 (by omega)

/-- Length of the all-zero 8 KiB image. -/
theorem zeros8k_length : zeros8k.length = 8192 := by
  show (List.replicate 8192 (0 : Nat)).length = 8192
  rw [List.length_replicate]

/-- The 3E+ fingerprint of an all-zero image, of any length, is a
clean false. -/
theorem fingerprint3ePlus_zeros (n : Nat) :
    fingerprint3ePlus (List.replicate n 0) = some false :=
  fp3eLoop_zeros _ (fun _ hx => List.eq_of_mem_replicate hx) 5 5 (by omega)

/-- Witness for C6 at the all-zero 8 KiB image. -/
theorem tigervision_chosen_iff_five_pairs_witness :
    zeros8k.length = 8192 ∧
    (cartridgeFingerprint zeros8k = some MapperChoice.tigervision ↔ 5 ≤ count853f zeros8k) := by
  have hH : fingerprintHarmony zeros8k = some false := by decide
  exact ⟨zeros8k_length, tigervision_chosen_iff_five_pairs zeros8k zeros8k_length hH
    (fingerprint3ePlus_zeros 8192)⟩

/-! ### C10 — fingerprinting is not total -/

/-- C10 counterexample: the claim asserts that every image shorter
than 0x24 bytes makes `Cartridge.fingerprint` panic, but a 35-byte
all-zero image (35 < 0x24) runs to completion and returns the typed
unrecognised-size error: `fingerprintHarmony` reads `b[0x20] = 0`,
which fails the `== 0x1e` test before any out-of-range index is
reached. -/
theorem fingerprint_short_image_no_panic :
    (List.replicate 35 (0 : Nat)).length < 0x24 ∧
    cartridgeFingerprint (List.replicate 35 0) = some MapperChoice.errUnrecognisedSize := by
  constructor
  · simp
  · decide

/-- C10 (amended): fingerprinting is not a total function of the image
bytes.  Every image of length at most 0x20 panics on the unguarded
`b[0x20]` read in `fingerprintHarmony`; every image ending in 0x85
that matches neither the Harmony nor the Supercharger test and does
not satisfy the 3E+ fingerprint panics on the `b[i+1]` read at the
final index of `fingerprint3ePlus`; in particular the concrete
36-byte image `short85` panics. -/
theorem fingerprint_panics :
    (∀ b : List Nat, b.length ≤ 0x20 → cartridgeFingerprint b = none) ∧
    (∀ l : List Nat, fingerprintHarmony (l ++ [0x85]) = some false →
      fingerprintSuperchargerFastLoad (l ++ [0x85]) = false →
      fingerprint3ePlus (l ++ [0x85]) ≠ some true →
      cartridgeFingerprint (l ++ [0x85]) = none) ∧
    cartridgeFingerprint short85 = none := by
  refine ⟨?_, ?_, by decide⟩
  · intro b h
    have hH : fingerprintHarmony b = none := by
      unfold fingerprintHarmony
      rw [List.get?_eq_none.mpr (by omega)]
    unfold cartridgeFingerprint
    rw [hH]
  · intro l hH hsc hne
    have h3 : fingerprint3ePlus (l ++ [0x85]) = none := by
      rcases hq : fingerprint3ePlus (l ++ [0x85]) with _ | bb
      · rfl
      · cases bb
        · exact absurd hq (fp3eLoop_append85 l 5 5)
        · exact absurd hq hne
    unfold cartridgeFingerprint
    rw [hH, hsc, h3]
    rfl

/-! ### C5 — Parker Bros segment-0 switch -/

/-- Masking with 0x3ff is the identity below 0x400. -/
theorem land1023_eq (a : Nat) (h : a ≤ 0x3ff) : a &&& 0x3ff = a := by
  have h2 : a &&& 0x3ff = a % 2 ^ 10 := Nat.and_pow_two_sub_one_eq_mod a 10
  rw [h2, Nat.mod_eq_of_lt (by omega)]

/-- C5: an active access to hotspot `0x0fe0 + k` (k in 0..7) sets
segment 0 to bank `k` and leaves the banks unchanged; afterwards every
read of an address in 0x0000-0x03ff (active or passive) returns the
byte of bank `k` at that offset and changes nothing; and a passive
access to any hotspot address leaves the mapper state (all four
segments included) unchanged, for reads and writes alike. -/
theorem parkerBros_segment0_switch (c : ParkerBros) (k : Nat) (hk : k < 8) :
    ((ParkerBros.Read c (0xfe0 + k) false).1.segment0 = k) ∧
    ((ParkerBros.Read c (0xfe0 + k) false).1.banks = c.banks) ∧
    (∀ addr, addr ≤ 0x3ff → ∀ p,
      (ParkerBros.Read ((ParkerBros.Read c (0xfe0 + k) false).1) addr p).2 =
        (c.banks.getD k []).getD addr 0 ∧
      (ParkerBros.Read ((ParkerBros.Read c (0xfe0 + k) false).1) addr p).1 =
        (ParkerBros.Read c (0xfe0 + k) false).1) ∧
    (∀ addr, 0xfe0 ≤ addr → addr ≤ 0xff7 →
      (ParkerBros.Read c addr true).1 = c ∧ (ParkerBros.Write c addr 0 true false).1 = c) := by
  refine ⟨?_, ?_, ?_, ?_⟩
  · interval_cases k <;> simp [ParkerBros.Read, ParkerBros.hotspot]
  · interval_cases k <;> simp [ParkerBros.Read, ParkerBros.hotspot]
  · intro addr haddr p
    have hno : ¬(0xfe0 ≤ addr ∧ addr ≤ 0xff7) := by omega
    constructor
    · interval_cases k <;>
        simp [ParkerBros.Read, ParkerBros.hotspot, hno, haddr, land1023_eq addr haddr]
    · interval_cases k <;>
        simp [ParkerBros.Read, ParkerBros.hotspot, hno, haddr]
  · intro addr h1 h2
    have hyes : 0xfe0 ≤ addr ∧ addr ≤ 0xff7 := ⟨h1, h2⟩
    constructor
    · simp [ParkerBros.Read, ParkerBros.hotspot, hyes]
    · simp [ParkerBros.Write, ParkerBros.hotspot, hyes]

/-- Witness for C5: the concrete mapper `parkerBrosW` and hotspot
0x0fe4 (bank 4 into segment 0). -/
theorem parkerBros_segment0_switch_witness :
    4 < 8 ∧
    (((ParkerBros.Read parkerBrosW (0xfe0 + 4) false).1.segment0 = 4) ∧
    ((ParkerBros.Read parkerBrosW (0xfe0 + 4) false).1.banks = parkerBrosW.banks) ∧
    (∀ addr, addr ≤ 0x3ff → ∀ p,
      (ParkerBros.Read ((ParkerBros.Read parkerBrosW (0xfe0 + 4) false).1) addr p).2 =
        (parkerBrosW.banks.getD 4 []).getD addr 0 ∧
      (ParkerBros.Read ((ParkerBros.Read parkerBrosW (0xfe0 + 4) false).1) addr p).1 =
        (ParkerBros.Read parkerBrosW (0xfe0 + 4) false).1) ∧
    (∀ addr, 0xfe0 ≤ addr → addr ≤ 0xff7 →
      (ParkerBros.Read parkerBrosW addr true).1 = parkerBrosW ∧
      (ParkerBros.Write parkerBrosW addr 0 true false).1 = parkerBrosW)) :=
  ⟨by omega, parkerBros_segment0_switch parkerBrosW 4 (by omega)⟩

/-! ### C7 — errors and state mutation in HandController.Handle -/

/-- C7 counterexample: `Handle(KeyboardDown, 'a')` returns a
bad-input-event error and yet has already switched the active
controller type to the keypad, so an erroring call does not always
leave the hand-controller state unchanged. -/
theorem handle_error_mutates_which :
    ((newHandController0 false).Handle Event.KeyboardDown (EventValue.vRune 'a')).err =
      some InputError.BadInputEventType ∧
    ((newHandController0 false).Handle Event.KeyboardDown (EventValue.vRune 'a')).hc ≠
      newHandController0 false := by
  decide

/-- C7 (amended): whenever `Handle` returns an error, the controller
state and the driven chip memory are unchanged — except that a
`KeyboardDown` event whose rune fails validation has already set the
active controller type to the keypad (everything else, including the
chip memory, still untouched). -/
theorem handle_error_leaves_state (hc : HandController) (e : Event) (v : EventValue)
    (err : InputError) (h : (hc.Handle e v).err = some err) :
    ((hc.Handle e v).hc = hc ∧ (hc.Handle e v).writes = []) ∨
    (e = Event.KeyboardDown ∧
      (hc.Handle e v).hc = { hc with which := ControllerType.KeyboardType } ∧
      (hc.Handle e v).writes = []) := by
  cases e <;> cases v <;>
    first
    | (simp_all [HandController.Handle]; done)
    | skip
  case Fire.vBool b =>
    rcases b with _ | _ <;> rcases hl : hc.latchFireButton with _ | _ <;>
      simp_all [HandController.Handle]
  case KeyboardDown.vRune c =>
    simp only [HandController.Handle] at h ⊢
    split at h
    · rename_i hcond
      right
      simp [if_pos hcond]
    · simp at h

/-- Witness for C7 (amended) at an unplug event on controller zero. -/
theorem handle_error_leaves_state_witness :
    ((newHandController0 false).Handle Event.Unplug EventValue.vNil).err =
      some InputError.InputDeviceUnplugged ∧
    ((((newHandController0 false).Handle Event.Unplug EventValue.vNil).hc =
        newHandController0 false ∧
      ((newHandController0 false).Handle Event.Unplug EventValue.vNil).writes = []) ∨
    (Event.Unplug = Event.KeyboardDown ∧
      ((newHandController0 false).Handle Event.Unplug EventValue.vNil).hc =
        { newHandController0 false with which := ControllerType.KeyboardType } ∧
      ((newHandController0 false).Handle Event.Unplug EventValue.vNil).writes = [])) :=
  ⟨by decide,
    handle_error_leaves_state (newHandController0 false) Event.Unplug EventValue.vNil
      InputError.InputDeviceUnplugged (by decide)⟩

/-! ### C8 — the keypad rune filter -/

/-- C8: the rune validation of `KeyboardDown` accepts '1'-'9', '*' and
'#' (recording the rune as the active key) but rejects '0' with a
bad-input-event error, although the claim, the specification and the
code's own error text ("numeric rune or '*' or '#'") admit '0': the
check `v != '1' && ... && v != '9'` simply omits '0'. -/
theorem keypad_zero_rejected (hc : HandController) :
    ((hc.Handle Event.KeyboardDown (EventValue.vRune '0')).err =
        some InputError.BadInputEventType ∧
      (hc.Handle Event.KeyboardDown (EventValue.vRune '0')).hc =
        { hc with which := ControllerType.KeyboardType } ∧
      (hc.Handle Event.KeyboardDown (EventValue.vRune '0')).writes = []) ∧
    ((hc.Handle Event.KeyboardDown (EventValue.vRune '5')).err = none ∧
      (hc.Handle Event.KeyboardDown (EventValue.vRune '5')).hc =
        { hc with which := ControllerType.KeyboardType, keyboardKey := '5' }) ∧
    ((hc.Handle Event.KeyboardDown (EventValue.vRune '#')).err = none ∧
      (hc.Handle Event.KeyboardDown (EventValue.vRune '#')).hc =
        { hc with which := ControllerType.KeyboardType, keyboardKey := '#' }) ∧
    ((hc.Handle Event.KeyboardDown (EventValue.vRune 'x')).err =
        some InputError.BadInputEventType) := by
  refine ⟨⟨?_, ?_, ?_⟩, ⟨?_, ?_⟩, ⟨?_, ?_⟩, ?_⟩ <;>
    simp [HandController.Handle]

/-! ### C9 — paddle charge timing -/

/-- The accumulated float32 ticks value stays strictly below the 0.5
resistance for the first 50 additions of the 0.01 sensitivity (exact
binary32 arithmetic: after 50 additions the accumulator holds
`16777209 * 2^-25 < 1/2`). -/
theorem ticksTraj_lt_half : ∀ k : Fin 51, geF32 (ticksTraj k.val) f32Half = false := by
  decide

/-- The 51st addition pushes the accumulator to `0.50999...`, at or
above the 0.5 resistance. -/
theorem ticksTraj_51_ge_half : geF32 (ticksTraj 51) f32Half = true := by
  decide

/-- For the first 50 recharge ticks nothing but the accumulator
changes: the controller equals the initial one with the accumulated
ticks value. -/
theorem rechargeIter_no_trigger (hc : HandController)
    (hw : hc.which = ControllerType.PaddleType)
    (ht : hc.paddleTicks = f32Zero)
    (hr : hc.paddleResistance = f32Half)
    (h255 : hc.paddleCharge < 255) :
    ∀ n, n ≤ 50 → rechargeIter n hc = { hc with paddleTicks := ticksTraj n } := by
  intro n
  induction n with
  | zero =>
    intro _
    show hc = { hc with paddleTicks := ticksTraj 0 }
    rw [show ticksTraj 0 = f32Zero from rfl, ← ht]
  | succ n ih =>
    intro hle
    have hstep := ih (by omega)
    show (HandController.recharge (rechargeIter n hc)).1 = _
    rw [hstep]
    unfold HandController.recharge
    have hfalse : geF32 (addF32 (ticksTraj n) paddleSensitivity) f32Half = false :=
      ticksTraj_lt_half ⟨n + 1, by omega⟩
    simp [hw, h255, hr, hfalse]
    rfl

/-- C9: with the controller in paddle mode, the accumulator at zero
and the resistance at 0.5, the paddle charge is unchanged by the
first 50 recharge ticks and increments by exactly one on the 51st. -/
theorem paddle_charge_increments_at_51 (hc : HandController)
    (hw : hc.which = ControllerType.PaddleType)
    (ht : hc.paddleTicks = f32Zero)
    (hr : hc.paddleResistance = f32Half)
    (h255 : hc.paddleCharge < 255) :
    (∀ k : Fin 51, (rechargeIter k.val hc).paddleCharge = hc.paddleCharge) ∧
    (rechargeIter 51 hc).paddleCharge = hc.paddleCharge + 1 := by
  constructor
  · intro k
    rw [rechargeIter_no_trigger hc hw ht hr h255 k.val (by omega)]
  · have h50 := rechargeIter_no_trigger hc hw ht hr h255 50 (by omega)
    rw [show (51 : Nat) = 50 + 1 from rfl, rechargeIter, h50]
    unfold HandController.recharge
    have htrue : geF32 (addF32 (ticksTraj 50) paddleSensitivity) f32Half = true :=
      ticksTraj_51_ge_half
    simp [hw, h255, hr, htrue]

/-- Witness for C9 at the concrete paddle controller. -/
theorem paddle_charge_increments_at_51_witness :
    (paddleHc.which = ControllerType.PaddleType ∧ paddleHc.paddleTicks = f32Zero ∧
      paddleHc.paddleResistance = f32Half ∧ paddleHc.paddleCharge < 255) ∧
    (∀ k : Fin 51, (rechargeIter k.val paddleHc).paddleCharge = paddleHc.paddleCharge) ∧
    (rechargeIter 51 paddleHc).paddleCharge = paddleHc.paddleCharge + 1 :=
  ⟨⟨rfl, rfl, rfl, by decide⟩,
    paddle_charge_increments_at_51 paddleHc rfl rfl rfl (by decide)⟩

/-! ### C1 — orchestrator sequencing -/

/-- Length of `m` repetitions of the per-cycle pattern. -/
theorem flattenReplicate_length : ∀ m : Nat,
    (List.flatten (List.replicate m cyclePattern)).length = 4 * m := by
  intro m
  induction m with
  | zero => rfl
  | succ m ih =>
    simp only [List.replicate_succ, List.flatten_cons, List.length_append, ih, cyclePattern]
    simp
    omega

/-- The instruction phase emits exactly one pattern per CPU cycle. -/
theorem instrPhase_trace {R T : Type} (riotStep : R → R) (tiaStep : T → T × Bool) :
    ∀ (n : Nat) (s : VCSSt R T),
      (instrPhase riotStep tiaStep n s).2 = List.flatten (List.replicate n cyclePattern) := by
  intro n
  induction n with
  | zero => intro s; rfl
  | succ n ih =>
    intro s
    simp only [instrPhase, cycleVCS, ih, List.replicate_succ, List.flatten_cons]

/-- The RDY recovery loop runs some number `m` of additional cycles:
it emits exactly `m` copies of the per-cycle pattern, stops only with
RDY high unless the fuel ran out, and runs no cycle at all when RDY is
already high. -/
theorem wsyncLoop_spec {R T : Type} (riotStep : R → R) (tiaStep : T → T × Bool) :
    ∀ (fuel : Nat) (s : VCSSt R T),
      ∃ m, m ≤ fuel ∧
        (wsyncLoop riotStep tiaStep fuel s).2 = List.flatten (List.replicate m cyclePattern) ∧
        ((wsyncLoop riotStep tiaStep fuel s).1.rdy = true ∨ m = fuel) ∧
        (s.rdy = true → m = 0) := by
  intro fuel
  induction fuel with
  | zero =>
    intro s
    exact ⟨0, Nat.le_refl 0, rfl, Or.inr rfl, fun _ => rfl⟩
  | succ fuel ih =>
    intro s
    by_cases hrdy : s.rdy = true
    · refine ⟨0, by omega, ?_, ?_, fun _ => rfl⟩
      · simp only [wsyncLoop, if_pos hrdy]
        rfl
      · left
        simp only [wsyncLoop, if_pos hrdy]
        exact hrdy
    · obtain ⟨m, hm, htr, hr, _⟩ := ih (cycleVCS riotStep tiaStep s).1
      refine ⟨m + 1, by omega, ?_, ?_, fun hs => absurd hs hrdy⟩
      · simp only [wsyncLoop, if_neg hrdy]
        show cyclePattern ++ (wsyncLoop riotStep tiaStep fuel _).2 = _
        rw [htr, List.replicate_succ, List.flatten_cons]
      · simp only [wsyncLoop, if_neg hrdy]
        rcases hr with hr | hr
        · left
          exact hr
        · right
          omega

/-- C1: in `VCS.Step`, every CPU cycle runs the RIOT exactly once and
then the TIA exactly three times, in that order (`cycleVCS` emits
exactly that action pattern for every state); and after the `n`
instruction cycles the orchestrator keeps running the same per-cycle
sequence for `m` more cycles, stopping only once the CPU RDY flag is
true (or on fuel exhaustion, which the unbounded Go loop does not
have), with no extra cycle when RDY is already high; the `cpuCycles`
count it returns is `n + m`.  The statement is parametric in the RIOT
and TIA step functions, whose internals the orchestrator does not
inspect. -/
theorem vcsStep_riot_tia_sequencing {R T : Type} (riotStep : R → R)
    (tiaStep : T → T × Bool) (n fuel : Nat) (s : VCSSt R T) :
    (∀ s2 : VCSSt R T, (cycleVCS riotStep tiaStep s2).2 =
      [VCSAction.runRiot, VCSAction.runTia, VCSAction.runTia, VCSAction.runTia]) ∧
    ∃ m, m ≤ fuel ∧
      (vcsStep riotStep tiaStep n fuel s).2.1 =
        List.flatten (List.replicate (n + m) cyclePattern) ∧
      ((vcsStep riotStep tiaStep n fuel s).1.rdy = true ∨ m = fuel) ∧
      ((instrPhase riotStep tiaStep n s).1.rdy = true → m = 0) ∧
      (vcsStep riotStep tiaStep n fuel s).2.2 = n + m := by
  refine ⟨fun s2 => rfl, ?_⟩
  obtain ⟨m, hm, htr, hrdy, h0⟩ :=
    wsyncLoop_spec riotStep tiaStep fuel (instrPhase riotStep tiaStep n s).1
  refine ⟨m, hm, ?_, ?_, h0, ?_⟩
  · show (instrPhase riotStep tiaStep n s).2 ++
      (wsyncLoop riotStep tiaStep fuel (instrPhase riotStep tiaStep n s).1).2 = _
    rw [instrPhase_trace, htr, List.replicate_add, List.flatten_append]
  · exact hrdy
  · show n + (wsyncLoop riotStep tiaStep fuel (instrPhase riotStep tiaStep n s).1).2.length / 4
      = n + m
    rw [htr, flattenReplicate_length]
    omega

set_option linter.unreachableTactic false
set_option linter.unusedTactic false

/-! ### Frame lemmas for the phases of `tia.Step`

Each delay-slot tick only writes its own remaining count and the
fields its firing payload names; the lemmas below record the fields
each phase leaves untouched (with a hypothesis when preservation
requires the slot not to be firing this cycle), together with the
effects of a firing slot. -/

theorem tickVblank_wsync (s : TIAState) : (tickVblank s).wsync = s.wsync := by
  unfold tickVblank
  split <;> first | rfl | (split <;> rfl)

theorem tickVblank_hblank (s : TIAState) : (tickVblank s).hblank = s.hblank := by
  unfold tickVblank
  split <;> first | rfl | (split <;> rfl)

theorem tickVblank_videoCycles (s : TIAState) : (tickVblank s).videoCycles = s.videoCycles := by
  unfold tickVblank
  split <;> first | rfl | (split <;> rfl)

theorem tickVblank_pclk (s : TIAState) : (tickVblank s).pclk = s.pclk := by
  unfold tickVblank
  split <;> first | rfl | (split <;> rfl)

theorem tickVblank_hsync (s : TIAState) : (tickVblank s).hsync = s.hsync := by
  unfold tickVblank
  split <;> first | rfl | (split <;> rfl)

theorem tickVblank_hmoveLatch (s : TIAState) : (tickVblank s).hmoveLatch = s.hmoveLatch := by
  unfold tickVblank
  split <;> first | rfl | (split <;> rfl)

theorem tickVblank_hmoveCt (s : TIAState) : (tickVblank s).hmoveCt = s.hmoveCt := by
  unfold tickVblank
  split <;> first | rfl | (split <;> rfl)

theorem tickVblank_futRsyncAlignRem (s : TIAState) : (tickVblank s).futRsyncAlignRem = s.futRsyncAlignRem := by
  unfold tickVblank
  split <;> first | rfl | (split <;> rfl)

theorem tickVblank_futRsyncResetRem (s : TIAState) : (tickVblank s).futRsyncResetRem = s.futRsyncResetRem := by
  unfold tickVblank
  split <;> first | rfl | (split <;> rfl)

theorem tickVblank_futHmoveLatchRem (s : TIAState) : (tickVblank s).futHmoveLatchRem = s.futHmoveLatchRem := by
  unfold tickVblank
  split <;> first | rfl | (split <;> rfl)

theorem tickVblank_futHmoveRem (s : TIAState) : (tickVblank s).futHmoveRem = s.futHmoveRem := by
  unfold tickVblank
  split <;> first | rfl | (split <;> rfl)

theorem tickVblank_futHsyncRem (s : TIAState) : (tickVblank s).futHsyncRem = s.futHsyncRem := by
  unfold tickVblank
  split <;> first | rfl | (split <;> rfl)

theorem tickVblank_futHsyncEv (s : TIAState) : (tickVblank s).futHsyncEv = s.futHsyncEv := by
  unfold tickVblank
  split <;> first | rfl | (split <;> rfl)

theorem tickRsyncAlign_pclk (s : TIAState) : (tickRsyncAlign s).pclk = s.pclk := by
  unfold tickRsyncAlign
  split <;> first | rfl | (split <;> rfl)

theorem tickRsyncAlign_hsync (s : TIAState) : (tickRsyncAlign s).hsync = s.hsync := by
  unfold tickRsyncAlign
  split <;> first | rfl | (split <;> rfl)

theorem tickRsyncAlign_hmoveLatch (s : TIAState) : (tickRsyncAlign s).hmoveLatch = s.hmoveLatch := by
  unfold tickRsyncAlign
  split <;> first | rfl | (split <;> rfl)

theorem tickRsyncAlign_hmoveCt (s : TIAState) : (tickRsyncAlign s).hmoveCt = s.hmoveCt := by
  unfold tickRsyncAlign
  split <;> first | rfl | (split <;> rfl)

theorem tickRsyncAlign_futRsyncResetRem (s : TIAState) : (tickRsyncAlign s).futRsyncResetRem = s.futRsyncResetRem := by
  unfold tickRsyncAlign
  split <;> first | rfl | (split <;> rfl)

theorem tickRsyncAlign_futHmoveLatchRem (s : TIAState) : (tickRsyncAlign s).futHmoveLatchRem = s.futHmoveLatchRem := by
  unfold tickRsyncAlign
  split <;> first | rfl | (split <;> rfl)

theorem tickRsyncAlign_futHmoveRem (s : TIAState) : (tickRsyncAlign s).futHmoveRem = s.futHmoveRem := by
  unfold tickRsyncAlign
  split <;> first | rfl | (split <;> rfl)

theorem tickRsyncAlign_futHsyncRem (s : TIAState) : (tickRsyncAlign s).futHsyncRem = s.futHsyncRem := by
  unfold tickRsyncAlign
  split <;> first | rfl | (split <;> rfl)

theorem tickRsyncAlign_futHsyncEv (s : TIAState) : (tickRsyncAlign s).futHsyncEv = s.futHsyncEv := by
  unfold tickRsyncAlign
  split <;> first | rfl | (split <;> rfl)

theorem tickRsyncAlign_wsync (s : TIAState) (h : s.futRsyncAlignRem ≠ 1) :
    (tickRsyncAlign s).wsync = s.wsync := by
  unfold tickRsyncAlign
  split <;> first | rfl | (exfalso; omega)

theorem tickRsyncAlign_hblank (s : TIAState) (h : s.futRsyncAlignRem ≠ 1) :
    (tickRsyncAlign s).hblank = s.hblank := by
  unfold tickRsyncAlign
  split <;> first | rfl | (exfalso; omega)

theorem tickRsyncAlign_videoCycles (s : TIAState) (h : s.futRsyncAlignRem ≠ 1) :
    (tickRsyncAlign s).videoCycles = s.videoCycles := by
  unfold tickRsyncAlign
  split <;> first | rfl | (exfalso; omega)

theorem tickRsyncAlign_rem0 (s : TIAState) (h : s.futRsyncAlignRem = 0) :
    (tickRsyncAlign s).futRsyncAlignRem = 0 := by
  unfold tickRsyncAlign
  rw [if_pos h]
  exact h

theorem tickRsyncReset_wsync (s : TIAState) : (tickRsyncReset s).wsync = s.wsync := by
  unfold tickRsyncReset
  split <;> first | rfl | (split <;> rfl)

theorem tickRsyncReset_hblank (s : TIAState) : (tickRsyncReset s).hblank = s.hblank := by
  unfold tickRsyncReset
  split <;> first | rfl | (split <;> rfl)

theorem tickRsyncReset_videoCycles (s : TIAState) : (tickRsyncReset s).videoCycles = s.videoCycles := by
  unfold tickRsyncReset
  split <;> first | rfl | (split <;> rfl)

theorem tickRsyncReset_hmoveLatch (s : TIAState) : (tickRsyncReset s).hmoveLatch = s.hmoveLatch := by
  unfold tickRsyncReset
  split <;> first | rfl | (split <;> rfl)

theorem tickRsyncReset_hmoveCt (s : TIAState) : (tickRsyncReset s).hmoveCt = s.hmoveCt := by
  unfold tickRsyncReset
  split <;> first | rfl | (split <;> rfl)

theorem tickRsyncReset_futRsyncAlignRem (s : TIAState) : (tickRsyncReset s).futRsyncAlignRem = s.futRsyncAlignRem := by
  unfold tickRsyncReset
  split <;> first | rfl | (split <;> rfl)

theorem tickRsyncReset_futHmoveLatchRem (s : TIAState) : (tickRsyncReset s).futHmoveLatchRem = s.futHmoveLatchRem := by
  unfold tickRsyncReset
  split <;> first | rfl | (split <;> rfl)

theorem tickRsyncReset_futHmoveRem (s : TIAState) : (tickRsyncReset s).futHmoveRem = s.futHmoveRem := by
  unfold tickRsyncReset
  split <;> first | rfl | (split <;> rfl)

theorem tickRsyncReset_futHsyncRem (s : TIAState) : (tickRsyncReset s).futHsyncRem = s.futHsyncRem := by
  unfold tickRsyncReset
  split <;> first | rfl | (split <;> rfl)

theorem tickRsyncReset_futHsyncEv (s : TIAState) : (tickRsyncReset s).futHsyncEv = s.futHsyncEv := by
  unfold tickRsyncReset
  split <;> first | rfl | (split <;> rfl)

theorem tickRsyncReset_pclk (s : TIAState) (h : s.futRsyncResetRem ≠ 1) :
    (tickRsyncReset s).pclk = s.pclk := by
  unfold tickRsyncReset
  split <;> first | rfl | (exfalso; omega)

theorem tickRsyncReset_hsync (s : TIAState) (h : s.futRsyncResetRem ≠ 1) :
    (tickRsyncReset s).hsync = s.hsync := by
  unfold tickRsyncReset
  split <;> first | rfl | (exfalso; omega)

theorem tickHmoveLatch_wsync (s : TIAState) : (tickHmoveLatch s).wsync = s.wsync := by
  unfold tickHmoveLatch
  split <;> first | rfl | (split <;> rfl)

theorem tickHmoveLatch_hblank (s : TIAState) : (tickHmoveLatch s).hblank = s.hblank := by
  unfold tickHmoveLatch
  split <;> first | rfl | (split <;> rfl)

theorem tickHmoveLatch_videoCycles (s : TIAState) : (tickHmoveLatch s).videoCycles = s.videoCycles := by
  unfold tickHmoveLatch
  split <;> first | rfl | (split <;> rfl)

theorem tickHmoveLatch_pclk (s : TIAState) : (tickHmoveLatch s).pclk = s.pclk := by
  unfold tickHmoveLatch
  split <;> first | rfl | (split <;> rfl)

theorem tickHmoveLatch_hsync (s : TIAState) : (tickHmoveLatch s).hsync = s.hsync := by
  unfold tickHmoveLatch
  split <;> first | rfl | (split <;> rfl)

theorem tickHmoveLatch_hmoveCt (s : TIAState) : (tickHmoveLatch s).hmoveCt = s.hmoveCt := by
  unfold tickHmoveLatch
  split <;> first | rfl | (split <;> rfl)

theorem tickHmoveLatch_futRsyncAlignRem (s : TIAState) : (tickHmoveLatch s).futRsyncAlignRem = s.futRsyncAlignRem := by
  unfold tickHmoveLatch
  split <;> first | rfl | (split <;> rfl)

theorem tickHmoveLatch_futRsyncResetRem (s : TIAState) : (tickHmoveLatch s).futRsyncResetRem = s.futRsyncResetRem := by
  unfold tickHmoveLatch
  split <;> first | rfl | (split <;> rfl)

theorem tickHmoveLatch_futHmoveRem (s : TIAState) : (tickHmoveLatch s).futHmoveRem = s.futHmoveRem := by
  unfold tickHmoveLatch
  split <;> first | rfl | (split <;> rfl)

theorem tickHmoveLatch_futHsyncRem (s : TIAState) : (tickHmoveLatch s).futHsyncRem = s.futHsyncRem := by
  unfold tickHmoveLatch
  split <;> first | rfl | (split <;> rfl)

theorem tickHmoveLatch_futHsyncEv (s : TIAState) : (tickHmoveLatch s).futHsyncEv = s.futHsyncEv := by
  unfold tickHmoveLatch
  split <;> first | rfl | (split <;> rfl)

theorem tickHmove_wsync (s : TIAState) : (tickHmove s).wsync = s.wsync := by
  unfold tickHmove
  split <;> first | rfl | (split <;> rfl)

theorem tickHmove_hblank (s : TIAState) : (tickHmove s).hblank = s.hblank := by
  unfold tickHmove
  split <;> first | rfl | (split <;> rfl)

theorem tickHmove_videoCycles (s : TIAState) : (tickHmove s).videoCycles = s.videoCycles := by
  unfold tickHmove
  split <;> first | rfl | (split <;> rfl)

theorem tickHmove_pclk (s : TIAState) : (tickHmove s).pclk = s.pclk := by
  unfold tickHmove
  split <;> first | rfl | (split <;> rfl)

theorem tickHmove_hsync (s : TIAState) : (tickHmove s).hsync = s.hsync := by
  unfold tickHmove
  split <;> first | rfl | (split <;> rfl)

theorem tickHmove_hmoveLatch (s : TIAState) : (tickHmove s).hmoveLatch = s.hmoveLatch := by
  unfold tickHmove
  split <;> first | rfl | (split <;> rfl)

theorem tickHmove_futRsyncAlignRem (s : TIAState) : (tickHmove s).futRsyncAlignRem = s.futRsyncAlignRem := by
  unfold tickHmove
  split <;> first | rfl | (split <;> rfl)

theorem tickHmove_futHsyncRem (s : TIAState) : (tickHmove s).futHsyncRem = s.futHsyncRem := by
  unfold tickHmove
  split <;> first | rfl | (split <;> rfl)

theorem tickHmove_futHsyncEv (s : TIAState) : (tickHmove s).futHsyncEv = s.futHsyncEv := by
  unfold tickHmove
  split <;> first | rfl | (split <;> rfl)

theorem tickHmove_hmoveCt (s : TIAState) (h : s.futHmoveRem ≠ 1) :
    (tickHmove s).hmoveCt = s.hmoveCt := by
  unfold tickHmove
  split <;> first | rfl | (exfalso; omega)

theorem tickHmove_fire (s : TIAState) (h : s.futHmoveRem = 1) :
    (tickHmove s).hmoveCt = 15 := by
  unfold tickHmove
  rw [if_neg (by omega), if_pos h]

theorem tickHsyncSlot_pclk (s : TIAState) : (tickHsyncSlot s).pclk = s.pclk := by
  unfold tickHsyncSlot
  split <;>
    first
    | rfl
    | (cases hev2 : s.futHsyncEv <;> simp [hev2, TIAState.newScanline] <;> split <;> rfl)

theorem tickHsyncSlot_hsync (s : TIAState) : (tickHsyncSlot s).hsync = s.hsync := by
  unfold tickHsyncSlot
  split <;>
    first
    | rfl
    | (cases hev2 : s.futHsyncEv <;> simp [hev2, TIAState.newScanline] <;> split <;> rfl)

theorem tickHsyncSlot_hmoveLatch (s : TIAState) : (tickHsyncSlot s).hmoveLatch = s.hmoveLatch := by
  unfold tickHsyncSlot
  split <;>
    first
    | rfl
    | (cases hev2 : s.futHsyncEv <;> simp [hev2, TIAState.newScanline] <;> split <;> rfl)

theorem tickHsyncSlot_hmoveCt (s : TIAState) : (tickHsyncSlot s).hmoveCt = s.hmoveCt := by
  unfold tickHsyncSlot
  split <;>
    first
    | rfl
    | (cases hev2 : s.futHsyncEv <;> simp [hev2, TIAState.newScanline] <;> split <;> rfl)

theorem tickHsyncSlot_futRsyncAlignRem (s : TIAState) : (tickHsyncSlot s).futRsyncAlignRem = s.futRsyncAlignRem := by
  unfold tickHsyncSlot
  split <;>
    first
    | rfl
    | (cases hev2 : s.futHsyncEv <;> simp [hev2, TIAState.newScanline] <;> split <;> rfl)

theorem tickHsyncSlot_wsync (s : TIAState)
    (h : ¬(s.futHsyncRem = 1 ∧ s.futHsyncEv = HsyncEv.evNewScanline)) :
    (tickHsyncSlot s).wsync = s.wsync := by
  unfold tickHsyncSlot
  split <;>
    first
    | rfl
    | (cases hev2 : s.futHsyncEv <;> simp [hev2, TIAState.newScanline] <;> split <;>
        first
        | rfl
        | (exact absurd ⟨by assumption, hev2⟩ h))

theorem tickHsyncSlot_videoCycles (s : TIAState)
    (h : ¬(s.futHsyncRem = 1 ∧ s.futHsyncEv = HsyncEv.evNewScanline)) :
    (tickHsyncSlot s).videoCycles = s.videoCycles := by
  unfold tickHsyncSlot
  split <;>
    first
    | rfl
    | (cases hev2 : s.futHsyncEv <;> simp [hev2, TIAState.newScanline] <;> split <;>
        first
        | rfl
        | (exact absurd ⟨by assumption, hev2⟩ h))

theorem tickHsyncSlot_fireNsl (s : TIAState) (h1 : s.futHsyncRem = 1)
    (hev : s.futHsyncEv = HsyncEv.evNewScanline) :
    (tickHsyncSlot s).wsync = false ∧ (tickHsyncSlot s).hblank = true ∧
    (tickHsyncSlot s).videoCycles = 0 := by
  unfold tickHsyncSlot
  rw [if_neg (by omega), if_pos h1]
  cases hev2 : s.futHsyncEv <;> simp_all [TIAState.newScanline]

theorem hsyncPhase_wsync (s : TIAState) : (hsyncPhase s).wsync = s.wsync := by
  unfold hsyncPhase
  split <;>
    first
    | rfl
    | (split <;>
        first
        | rfl
        | (split <;>
            first
            | rfl
            | (split <;>
                first
                | rfl
                | (split <;>
                    first
                    | rfl
                    | (split <;>
                        first
                        | rfl
                        | (split <;>
                            first
                            | rfl
                            | (split <;>
                                first
                                | rfl
                                | (split <;> rfl))))))))

theorem hsyncPhase_hblank (s : TIAState) : (hsyncPhase s).hblank = s.hblank := by
  unfold hsyncPhase
  split <;>
    first
    | rfl
    | (split <;>
        first
        | rfl
        | (split <;>
            first
            | rfl
            | (split <;>
                first
                | rfl
                | (split <;>
                    first
                    | rfl
                    | (split <;>
                        first
                        | rfl
                        | (split <;>
                            first
                            | rfl
                            | (split <;>
                                first
                                | rfl
                                | (split <;> rfl))))))))

theorem hsyncPhase_videoCycles (s : TIAState) : (hsyncPhase s).videoCycles = s.videoCycles := by
  unfold hsyncPhase
  split <;>
    first
    | rfl
    | (split <;>
        first
        | rfl
        | (split <;>
            first
            | rfl
            | (split <;>
                first
                | rfl
                | (split <;>
                    first
                    | rfl
                    | (split <;>
                        first
                        | rfl
                        | (split <;>
                            first
                            | rfl
                            | (split <;>
                                first
                                | rfl
                                | (split <;> rfl))))))))

theorem hsyncPhase_pclk (s : TIAState) : (hsyncPhase s).pclk = s.pclk := by
  unfold hsyncPhase
  split <;>
    first
    | rfl
    | (split <;>
        first
        | rfl
        | (split <;>
            first
            | rfl
            | (split <;>
                first
                | rfl
                | (split <;>
                    first
                    | rfl
                    | (split <;>
                        first
                        | rfl
                        | (split <;>
                            first
                            | rfl
                            | (split <;>
                                first
                                | rfl
                                | (split <;> rfl))))))))

theorem hsyncPhase_hmoveCt (s : TIAState) : (hsyncPhase s).hmoveCt = s.hmoveCt := by
  unfold hsyncPhase
  split <;>
    first
    | rfl
    | (split <;>
        first
        | rfl
        | (split <;>
            first
            | rfl
            | (split <;>
                first
                | rfl
                | (split <;>
                    first
                    | rfl
                    | (split <;>
                        first
                        | rfl
                        | (split <;>
                            first
                            | rfl
                            | (split <;>
                                first
                                | rfl
                                | (split <;> rfl))))))))

theorem hmoveCtPhase_wsync (s : TIAState) : (hmoveCtPhase s).wsync = s.wsync := by
  unfold hmoveCtPhase
  split <;> first | rfl | (split <;> rfl)

theorem hmoveCtPhase_hblank (s : TIAState) : (hmoveCtPhase s).hblank = s.hblank := by
  unfold hmoveCtPhase
  split <;> first | rfl | (split <;> rfl)

theorem hmoveCtPhase_videoCycles (s : TIAState) : (hmoveCtPhase s).videoCycles = s.videoCycles := by
  unfold hmoveCtPhase
  split <;> first | rfl | (split <;> rfl)

theorem hmoveCtPhase_pclk (s : TIAState) : (hmoveCtPhase s).pclk = s.pclk := by
  unfold hmoveCtPhase
  split <;> first | rfl | (split <;> rfl)

theorem hmoveCtPhase_hsync (s : TIAState) : (hmoveCtPhase s).hsync = s.hsync := by
  unfold hmoveCtPhase
  split <;> first | rfl | (split <;> rfl)

theorem hmoveCtPhase_hmoveLatch (s : TIAState) : (hmoveCtPhase s).hmoveLatch = s.hmoveLatch := by
  unfold hmoveCtPhase
  split <;> first | rfl | (split <;> rfl)

theorem hmoveCtPhase_futRsyncAlignRem (s : TIAState) : (hmoveCtPhase s).futRsyncAlignRem = s.futRsyncAlignRem := by
  unfold hmoveCtPhase
  split <;> first | rfl | (split <;> rfl)

theorem hmoveCtPhase_futRsyncResetRem (s : TIAState) : (hmoveCtPhase s).futRsyncResetRem = s.futRsyncResetRem := by
  unfold hmoveCtPhase
  split <;> first | rfl | (split <;> rfl)

theorem hmoveCtPhase_futHmoveLatchRem (s : TIAState) : (hmoveCtPhase s).futHmoveLatchRem = s.futHmoveLatchRem := by
  unfold hmoveCtPhase
  split <;> first | rfl | (split <;> rfl)

theorem hmoveCtPhase_futHmoveRem (s : TIAState) : (hmoveCtPhase s).futHmoveRem = s.futHmoveRem := by
  unfold hmoveCtPhase
  split <;> first | rfl | (split <;> rfl)

theorem hmoveCtPhase_futHsyncRem (s : TIAState) : (hmoveCtPhase s).futHsyncRem = s.futHsyncRem := by
  unfold hmoveCtPhase
  split <;> first | rfl | (split <;> rfl)

theorem hmoveCtPhase_futHsyncEv (s : TIAState) : (hmoveCtPhase s).futHsyncEv = s.futHsyncEv := by
  unfold hmoveCtPhase
  split <;> first | rfl | (split <;> rfl)

theorem hmoveCtPhase_ct (s : TIAState) :
    (hmoveCtPhase s).hmoveCt =
      if phi2 s.pclk ∧ s.hmoveCt ≠ 0xff then (s.hmoveCt + 255) % 256 else s.hmoveCt := by
  unfold hmoveCtPhase
  split <;> rfl

/-! ### Step-level equations for `stepTIA`

The two equations below expose `stepTIA` as `stepCore` after the
pre-tick bookkeeping.  The tick/phase functions are made locally
irreducible so that unification compares their arguments instead of
unfolding them over symbolic structure literals. -/

section

attribute [local irreducible] tickVblank tickRsyncAlign tickRsyncReset tickHmoveLatch
  tickHmove tickHsyncSlot tickAllEvents hsyncPhase hmoveCtPhase stepCore

theorem stepTIA_none_fst (s : TIAState) :
    (stepTIA s none).1 = stepCore (preTick s) := rfl

theorem stepTIA_none_snd (s : TIAState) :
    (stepTIA s none).2 = !(stepCore (preTick s)).wsync := rfl

end

theorem stepCore_eq (s : TIAState) :
    stepCore s = hmoveCtPhase (hsyncPhase (tickAllEvents s)) := rfl

theorem preTick_pclk (s : TIAState) : (preTick s).pclk = (s.pclk + 1) % 4 := rfl

theorem preTick_hmoveCt (s : TIAState) : (preTick s).hmoveCt = s.hmoveCt := rfl

/-! ### Mid-level lemmas about the event-tick chain -/

theorem tickAllEvents_wsync (s : TIAState) (h1 : s.futRsyncAlignRem ≠ 1)
    (h2 : ¬(s.futHsyncRem = 1 ∧ s.futHsyncEv = HsyncEv.evNewScanline)) :
    (tickAllEvents s).wsync = s.wsync := by
  simp [tickAllEvents, tickVblank_wsync, tickRsyncAlign_wsync, tickRsyncReset_wsync,
    tickHmoveLatch_wsync, tickHmove_wsync, tickHsyncSlot_wsync,
    tickVblank_futRsyncAlignRem, tickVblank_futHsyncRem, tickVblank_futHsyncEv,
    tickRsyncAlign_futHsyncRem, tickRsyncAlign_futHsyncEv,
    tickRsyncReset_futHsyncRem, tickRsyncReset_futHsyncEv,
    tickHmoveLatch_futHsyncRem, tickHmoveLatch_futHsyncEv,
    tickHmove_futHsyncRem, tickHmove_futHsyncEv, h1, h2]

theorem tickAllEvents_fireNsl (s : TIAState) (h : s.futHsyncRem = 1)
    (hev : s.futHsyncEv = HsyncEv.evNewScanline) :
    (tickAllEvents s).wsync = false := by
  unfold tickAllEvents
  have hrem : (tickHmove (tickHmoveLatch (tickRsyncReset (tickRsyncAlign
      (tickVblank s))))).futHsyncRem = 1 := by
    simp [tickVblank_futHsyncRem, tickRsyncAlign_futHsyncRem, tickRsyncReset_futHsyncRem,
      tickHmoveLatch_futHsyncRem, tickHmove_futHsyncRem, h]
  have hev2 : (tickHmove (tickHmoveLatch (tickRsyncReset (tickRsyncAlign
      (tickVblank s))))).futHsyncEv = HsyncEv.evNewScanline := by
    simp [tickVblank_futHsyncEv, tickRsyncAlign_futHsyncEv, tickRsyncReset_futHsyncEv,
      tickHmoveLatch_futHsyncEv, tickHmove_futHsyncEv, hev]
  exact (tickHsyncSlot_fireNsl _ hrem hev2).1

theorem tickAllEvents_hmoveCt (s : TIAState) (hne : s.futHmoveRem ≠ 1) :
    (tickAllEvents s).hmoveCt = s.hmoveCt := by
  simp [tickAllEvents, tickVblank_hmoveCt, tickRsyncAlign_hmoveCt, tickRsyncReset_hmoveCt,
    tickHmoveLatch_hmoveCt, tickHmove_hmoveCt, tickHsyncSlot_hmoveCt,
    tickVblank_futHmoveRem, tickRsyncAlign_futHmoveRem, tickRsyncReset_futHmoveRem,
    tickHmoveLatch_futHmoveRem, hne]

theorem tickAllEvents_hmoveCt_fire (s : TIAState) (hf : s.futHmoveRem = 1) :
    (tickAllEvents s).hmoveCt = 15 := by
  unfold tickAllEvents
  have hrem : (tickHmoveLatch (tickRsyncReset (tickRsyncAlign
      (tickVblank s)))).futHmoveRem = 1 := by
    simp [tickVblank_futHmoveRem, tickRsyncAlign_futHmoveRem, tickRsyncReset_futHmoveRem,
      tickHmoveLatch_futHmoveRem, hf]
  rw [tickHsyncSlot_hmoveCt, tickHmove_fire _ hrem]

theorem tickAllEvents_pclk (s : TIAState) (hrr : s.futRsyncResetRem ≠ 1) :
    (tickAllEvents s).pclk = s.pclk := by
  simp [tickAllEvents, tickVblank_pclk, tickRsyncAlign_pclk, tickRsyncReset_pclk,
    tickHmoveLatch_pclk, tickHmove_pclk, tickHsyncSlot_pclk,
    tickVblank_futRsyncResetRem, tickRsyncAlign_futRsyncResetRem, hrr]

theorem tickAllEvents_hsync (s : TIAState) (hrr : s.futRsyncResetRem ≠ 1) :
    (tickAllEvents s).hsync = s.hsync := by
  simp [tickAllEvents, tickVblank_hsync, tickRsyncAlign_hsync, tickRsyncReset_hsync,
    tickHmoveLatch_hsync, tickHmove_hsync, tickHsyncSlot_hsync,
    tickVblank_futRsyncResetRem, tickRsyncAlign_futRsyncResetRem, hrr]

theorem tickAllEvents_futRsyncAlignRem0 (s : TIAState) (hra : s.futRsyncAlignRem = 0) :
    (tickAllEvents s).futRsyncAlignRem = 0 := by
  unfold tickAllEvents
  rw [tickHsyncSlot_futRsyncAlignRem, tickHmove_futRsyncAlignRem,
    tickHmoveLatch_futRsyncAlignRem, tickRsyncReset_futRsyncAlignRem,
    tickRsyncAlign_rem0]
  rw [tickVblank_futRsyncAlignRem]
  exact hra

theorem hsyncPhase_shb (s : TIAState) (hph : phi2 s.pclk = true)
    (h56 : s.hsync + 1 = 56) (hra : s.futRsyncAlignRem = 0) :
    (hsyncPhase s).futHsyncRem = schedRem 3 ∧
    (hsyncPhase s).futHsyncEv = HsyncEv.evNewScanline := by
  unfold hsyncPhase
  rw [h56]
  simp [hph, h56, hra]

theorem stepTIA_wsync_hold (s : TIAState) (hw : s.wsync = true)
    (h1 : s.futRsyncAlignRem ≠ 1)
    (h2 : ¬(s.futHsyncRem = 1 ∧ s.futHsyncEv = HsyncEv.evNewScanline)) :
    (stepTIA s none).2 = false ∧ (stepTIA s none).1.wsync = true := by
  have hws : (hmoveCtPhase (hsyncPhase (tickAllEvents (preTick s)))).wsync = true := by
    rw [hmoveCtPhase_wsync, hsyncPhase_wsync, tickAllEvents_wsync]
    · exact hw
    · exact h1
    · exact h2
  constructor
  · rw [stepTIA_none_snd, stepCore_eq, hws]
    rfl
  · rw [stepTIA_none_fst, stepCore_eq]
    exact hws

theorem stepTIA_newScanline_fires (s : TIAState) (h : s.futHsyncRem = 1)
    (hev : s.futHsyncEv = HsyncEv.evNewScanline) :
    (stepTIA s none).1.wsync = false ∧ (stepTIA s none).2 = true := by
  have hws : (hmoveCtPhase (hsyncPhase (tickAllEvents (preTick s)))).wsync = false := by
    rw [hmoveCtPhase_wsync, hsyncPhase_wsync, tickAllEvents_fireNsl]
    · exact h
    · exact hev
  constructor
  · rw [stepTIA_none_fst, stepCore_eq]
    exact hws
  · rw [stepTIA_none_snd, stepCore_eq, hws]
    rfl

theorem stepTIA_shb_schedules (s : TIAState)
    (hph : phi2 ((s.pclk + 1) % 4) = true) (h56 : s.hsync + 1 = 56)
    (hra : s.futRsyncAlignRem = 0) (hrr : s.futRsyncResetRem ≠ 1) :
    (stepTIA s none).1.futHsyncRem = schedRem 3 ∧
    (stepTIA s none).1.futHsyncEv = HsyncEv.evNewScanline := by
  have hpc : (tickAllEvents (preTick s)).pclk = (s.pclk + 1) % 4 :=
    tickAllEvents_pclk _ hrr
  have hhs : (tickAllEvents (preTick s)).hsync = s.hsync :=
    tickAllEvents_hsync _ hrr
  have hra2 : (tickAllEvents (preTick s)).futRsyncAlignRem = 0 :=
    tickAllEvents_futRsyncAlignRem0 _ hra
  have hshb := hsyncPhase_shb (tickAllEvents (preTick s))
    (by rw [hpc]; exact hph) (by rw [hhs]; exact h56) hra2
  constructor
  · rw [stepTIA_none_fst, stepCore_eq, hmoveCtPhase_futHsyncRem]
    exact hshb.1
  · rw [stepTIA_none_fst, stepCore_eq, hmoveCtPhase_futHsyncEv]
    exact hshb.2

theorem stepTIA_hmoveCt_dec (s : TIAState) (hne : s.futHmoveRem ≠ 1)
    (hrr : s.futRsyncResetRem ≠ 1) :
    (stepTIA s none).1.hmoveCt =
      if phi2 ((s.pclk + 1) % 4) ∧ s.hmoveCt ≠ 0xff then (s.hmoveCt + 255) % 256
      else s.hmoveCt := by
  rw [stepTIA_none_fst, stepCore_eq, hmoveCtPhase_ct, hsyncPhase_hmoveCt, hsyncPhase_pclk,
    tickAllEvents_hmoveCt (preTick s) hne, tickAllEvents_pclk (preTick s) hrr,
    preTick_pclk, preTick_hmoveCt]

theorem stepTIA_hmoveCt_load (s : TIAState) (hf : s.futHmoveRem = 1)
    (hrr : s.futRsyncResetRem ≠ 1) :
    (stepTIA s none).1.hmoveCt = if phi2 ((s.pclk + 1) % 4) then 14 else 15 := by
  rw [stepTIA_none_fst, stepCore_eq, hmoveCtPhase_ct, hsyncPhase_hmoveCt, hsyncPhase_pclk,
    tickAllEvents_hmoveCt_fire (preTick s) hf, tickAllEvents_pclk (preTick s) hrr,
    preTick_pclk]
  by_cases hp : phi2 ((s.pclk + 1) % 4) = true
  · simp [hp]
  · simp only [Bool.not_eq_true] at hp
    simp [hp]


/-! ## Claim theorems: TIA timing (C2, C3, C4)

The kernel cannot reduce 228 nested `stepTIA` applications in one go,
so the concrete scanline traces are stated in chunks of at most 30
video cycles anchored at the literal chunk-boundary states above,
stitched together by `iterTIA_add`. -/

/-- Splitting an iterated TIA run. -/
theorem iterTIA_add (b a : Nat) (s : TIAState) :
    iterTIA (b + a) s = iterTIA b (iterTIA a s) := by
  induction b with
  | zero =>
    rw [Nat.zero_add]
    rfl
  | succ n ih =>
    rw [Nat.succ_add]
    show (stepTIA (iterTIA (n + a) s) none).1 = _
    rw [ih]
    rfl

/-- C2: a write to WSYNC raises the wsync flag; while the flag is up
and no new-scanline event fires, `Step` keeps returning `false`
(holding CPU RDY low); the [SHB] decode at hsync count 56 schedules the
new-scanline event with the 3-clock delay; when that event fires the
flag is cleared and `Step` returns `true`.  Concretely, on the steady
scanline a WSYNC written on cycle 10 gives: the write cycle itself and
the following 217 cycles return `false` with the wsync flag held, and
the 219th cycle -- the scanline boundary, 228 cycles after the
scanline started -- returns `true` and lands exactly on the next
scanline start (traced in 30-cycle chunks through the `wsyncC` states). -/
theorem wsync_holds_rdy_until_shb :
    (∀ s : TIAState, TIAState.updateTIA s wsyncWr = { s with wsync := true }) ∧
    (∀ s : TIAState, s.wsync = true → s.futRsyncAlignRem ≠ 1 →
      ¬(s.futHsyncRem = 1 ∧ s.futHsyncEv = HsyncEv.evNewScanline) →
      (stepTIA s none).2 = false ∧ (stepTIA s none).1.wsync = true) ∧
    (∀ s : TIAState, s.futHsyncRem = 1 → s.futHsyncEv = HsyncEv.evNewScanline →
      (stepTIA s none).1.wsync = false ∧ (stepTIA s none).2 = true) ∧
    (∀ s : TIAState, phi2 ((s.pclk + 1) % 4) = true → s.hsync + 1 = 56 →
      s.futRsyncAlignRem = 0 → s.futRsyncResetRem ≠ 1 →
      (stepTIA s none).1.futHsyncRem = schedRem 3 ∧
      (stepTIA s none).1.futHsyncEv = HsyncEv.evNewScanline) ∧
    iterTIA 9 scanlineStart = wsyncS9 ∧
    stepTIA wsyncS9 (some wsyncWr) = (wsyncW1, false) ∧
    wsyncW1.wsync = true ∧
    (∀ i, i < 30 → (iterTIA i wsyncW1).wsync = true ∧
        (stepTIA (iterTIA i wsyncW1) none).2 = decide (0 + i = 217)) ∧
    iterTIA 30 wsyncW1 = wsyncC30 ∧
    (∀ i, i < 30 → (iterTIA i wsyncC30).wsync = true ∧
        (stepTIA (iterTIA i wsyncC30) none).2 = decide (30 + i = 217)) ∧
    iterTIA 30 wsyncC30 = wsyncC60 ∧
    (∀ i, i < 30 → (iterTIA i wsyncC60).wsync = true ∧
        (stepTIA (iterTIA i wsyncC60) none).2 = decide (60 + i = 217)) ∧
    iterTIA 30 wsyncC60 = wsyncC90 ∧
    (∀ i, i < 30 → (iterTIA i wsyncC90).wsync = true ∧
        (stepTIA (iterTIA i wsyncC90) none).2 = decide (90 + i = 217)) ∧
    iterTIA 30 wsyncC90 = wsyncC120 ∧
    (∀ i, i < 30 → (iterTIA i wsyncC120).wsync = true ∧
        (stepTIA (iterTIA i wsyncC120) none).2 = decide (120 + i = 217)) ∧
    iterTIA 30 wsyncC120 = wsyncC150 ∧
    (∀ i, i < 30 → (iterTIA i wsyncC150).wsync = true ∧
        (stepTIA (iterTIA i wsyncC150) none).2 = decide (150 + i = 217)) ∧
    iterTIA 30 wsyncC150 = wsyncC180 ∧
    (∀ i, i < 30 → (iterTIA i wsyncC180).wsync = true ∧
        (stepTIA (iterTIA i wsyncC180) none).2 = decide (180 + i = 217)) ∧
    iterTIA 30 wsyncC180 = wsyncC210 ∧
    (∀ i, i < 8 → (iterTIA i wsyncC210).wsync = true ∧
        (stepTIA (iterTIA i wsyncC210) none).2 = decide (210 + i = 217)) ∧
    iterTIA 8 wsyncC210 = scanlineStart ∧
    iterTIA 218 wsyncW1 = scanlineStart := by
  have b0 : iterTIA 30 wsyncW1 = wsyncC30 := by decide
  have b1 : iterTIA 30 wsyncC30 = wsyncC60 := by decide
  have b2 : iterTIA 30 wsyncC60 = wsyncC90 := by decide
  have b3 : iterTIA 30 wsyncC90 = wsyncC120 := by decide
  have b4 : iterTIA 30 wsyncC120 = wsyncC150 := by decide
  have b5 : iterTIA 30 wsyncC150 = wsyncC180 := by decide
  have b6 : iterTIA 30 wsyncC180 = wsyncC210 := by decide
  have bl : iterTIA 8 wsyncC210 = scanlineStart := by decide
  have e30 : iterTIA 30 wsyncW1 = wsyncC30 := b0
  have e60 : iterTIA 60 wsyncW1 = wsyncC60 := by
    rw [show (60 : Nat) = 30 + 30 from rfl, iterTIA_add, e30, b1]
  have e90 : iterTIA 90 wsyncW1 = wsyncC90 := by
    rw [show (90 : Nat) = 30 + 60 from rfl, iterTIA_add, e60, b2]
  have e120 : iterTIA 120 wsyncW1 = wsyncC120 := by
    rw [show (120 : Nat) = 30 + 90 from rfl, iterTIA_add, e90, b3]
  have e150 : iterTIA 150 wsyncW1 = wsyncC150 := by
    rw [show (150 : Nat) = 30 + 120 from rfl, iterTIA_add, e120, b4]
  have e180 : iterTIA 180 wsyncW1 = wsyncC180 := by
    rw [show (180 : Nat) = 30 + 150 from rfl, iterTIA_add, e150, b5]
  have e210 : iterTIA 210 wsyncW1 = wsyncC210 := by
    rw [show (210 : Nat) = 30 + 180 from rfl, iterTIA_add, e180, b6]
  have e218 : iterTIA 218 wsyncW1 = scanlineStart := by
    rw [show (218 : Nat) = 8 + 210 from rfl, iterTIA_add, e210, bl]
  exact ⟨fun _ => rfl, fun s hw h1 h2 => stepTIA_wsync_hold s hw h1 h2, fun s h hev => stepTIA_newScanline_fires s h hev, fun s hph h56 hra hrr => stepTIA_shb_schedules s hph h56 hra hrr,
    by decide,
    by decide,
    rfl,
    by decide,
    b0,
    by decide,
    b1,
    by decide,
    b2,
    by decide,
    b3,
    by decide,
    b4,
    by decide,
    b5,
    by decide,
    b6,
    by decide,
    bl,
    e218⟩

theorem wsync_holds_rdy_until_shb_witness :
    ((stepTIA { scanlineStart with wsync := true } none).2 = false ∧
      (stepTIA { scanlineStart with wsync := true } none).1.wsync = true) ∧
    (stepTIA { scanlineStart with futHsyncRem := 1 } none).1.wsync = false ∧
    (stepTIA { scanlineStart with hsync := 55, pclk := 1 } none).1.futHsyncRem = schedRem 3 :=
  ⟨wsync_holds_rdy_until_shb.2.1 _ rfl (by decide) (by decide),
   (wsync_holds_rdy_until_shb.2.2.1 _ rfl rfl).1,
   (wsync_holds_rdy_until_shb.2.2.2.1 _ (by decide) (by decide) (by decide) (by decide)).1⟩

/-- C3 (amended): the HBLANK window of a steady scanline.  The [RHB]
decode at count 16 schedules the HBLANK reset with the 3-clock delay
when the HMOVE latch is clear; the [LRHB] decode at count 18 does so
when the latch is set; the count-57 wrap clears the latch; a fired
HBLANK event switches HBLANK off.  Concretely, on the steady scanline
starting at `scanlineStart` (traced in 30-cycle chunks through the
`scanA` states), HBLANK is on exactly during color clocks 0-67, the
scanline is exactly 228 cycles, and with an HMOVE write on cycle 1
(the `hmoveB` chunk states) HBLANK is on exactly during clocks 0-75;
both scanlines return exactly to `scanlineStart`.  (The original
"every reachable state" form fails on the misaligned start-up
scanline; see the counterexample.) -/
theorem hblank_window_scanline :
    (∀ s : TIAState, phi2 s.pclk = true → s.hsync + 1 = 16 → s.hmoveLatch = false →
      (hsyncPhase s).futHsyncRem = schedRem 3 ∧
      (hsyncPhase s).futHsyncEv = HsyncEv.evHblankOff) ∧
    (∀ s : TIAState, phi2 s.pclk = true → s.hsync + 1 = 18 → s.hmoveLatch = true →
      (hsyncPhase s).futHsyncRem = schedRem 3 ∧
      (hsyncPhase s).futHsyncEv = HsyncEv.evHblankOff) ∧
    (∀ s : TIAState, phi2 s.pclk = true → s.hsync + 1 = 57 →
      (hsyncPhase s).hsync = 0 ∧ (hsyncPhase s).hmoveLatch = false) ∧
    (∀ s : TIAState, s.futHsyncRem = 1 → s.futHsyncEv = HsyncEv.evHblankOff →
      (tickHsyncSlot s).hblank = false) ∧
    (∀ i, i < 30 → (iterTIA i scanlineStart).hblank = decide (0 + i ≤ 67) ∧
        (iterTIA i scanlineStart).videoCycles = 0 + i) ∧
    iterTIA 30 scanlineStart = scanA30 ∧
    (∀ i, i < 30 → (iterTIA i scanA30).hblank = decide (30 + i ≤ 67) ∧
        (iterTIA i scanA30).videoCycles = 30 + i) ∧
    iterTIA 30 scanA30 = scanA60 ∧
    (∀ i, i < 30 → (iterTIA i scanA60).hblank = decide (60 + i ≤ 67) ∧
        (iterTIA i scanA60).videoCycles = 60 + i) ∧
    iterTIA 30 scanA60 = scanA90 ∧
    (∀ i, i < 30 → (iterTIA i scanA90).hblank = decide (90 + i ≤ 67) ∧
        (iterTIA i scanA90).videoCycles = 90 + i) ∧
    iterTIA 30 scanA90 = scanA120 ∧
    (∀ i, i < 30 → (iterTIA i scanA120).hblank = decide (120 + i ≤ 67) ∧
        (iterTIA i scanA120).videoCycles = 120 + i) ∧
    iterTIA 30 scanA120 = scanA150 ∧
    (∀ i, i < 30 → (iterTIA i scanA150).hblank = decide (150 + i ≤ 67) ∧
        (iterTIA i scanA150).videoCycles = 150 + i) ∧
    iterTIA 30 scanA150 = scanA180 ∧
    (∀ i, i < 30 → (iterTIA i scanA180).hblank = decide (180 + i ≤ 67) ∧
        (iterTIA i scanA180).videoCycles = 180 + i) ∧
    iterTIA 30 scanA180 = scanA210 ∧
    (∀ i, i < 18 → (iterTIA i scanA210).hblank = false ∧
        (iterTIA i scanA210).videoCycles = 210 + i) ∧
    iterTIA 18 scanA210 = scanlineStart ∧
    iterTIA 228 scanlineStart = scanlineStart ∧
    stepTIA scanlineStart (some hmoveWr) = (hmoveH1, true) ∧
    (∀ i, i < 29 → (iterTIA i hmoveH1).hblank = decide (1 + i ≤ 75) ∧
        (iterTIA i hmoveH1).videoCycles = 1 + i) ∧
    iterTIA 29 hmoveH1 = hmoveB30 ∧
    (∀ i, i < 30 → (iterTIA i hmoveB30).hblank = decide (30 + i ≤ 75) ∧
        (iterTIA i hmoveB30).videoCycles = 30 + i) ∧
    iterTIA 30 hmoveB30 = hmoveB60 ∧
    (∀ i, i < 30 → (iterTIA i hmoveB60).hblank = decide (60 + i ≤ 75) ∧
        (iterTIA i hmoveB60).videoCycles = 60 + i) ∧
    iterTIA 30 hmoveB60 = hmoveB90 ∧
    (∀ i, i < 30 → (iterTIA i hmoveB90).hblank = decide (90 + i ≤ 75) ∧
        (iterTIA i hmoveB90).videoCycles = 90 + i) ∧
    iterTIA 30 hmoveB90 = hmoveB120 ∧
    (∀ i, i < 30 → (iterTIA i hmoveB120).hblank = decide (120 + i ≤ 75) ∧
        (iterTIA i hmoveB120).videoCycles = 120 + i) ∧
    iterTIA 30 hmoveB120 = hmoveB150 ∧
    (∀ i, i < 30 → (iterTIA i hmoveB150).hblank = decide (150 + i ≤ 75) ∧
        (iterTIA i hmoveB150).videoCycles = 150 + i) ∧
    iterTIA 30 hmoveB150 = hmoveB180 ∧
    (∀ i, i < 30 → (iterTIA i hmoveB180).hblank = decide (180 + i ≤ 75) ∧
        (iterTIA i hmoveB180).videoCycles = 180 + i) ∧
    iterTIA 30 hmoveB180 = hmoveB210 ∧
    (∀ i, i < 18 → (iterTIA i hmoveB210).hblank = false ∧
        (iterTIA i hmoveB210).videoCycles = 210 + i) ∧
    iterTIA 18 hmoveB210 = scanlineStart ∧
    iterTIA 227 hmoveH1 = scanlineStart := by
  have p0 : iterTIA 30 scanlineStart = scanA30 := by decide
  have p1 : iterTIA 30 scanA30 = scanA60 := by decide
  have p2 : iterTIA 30 scanA60 = scanA90 := by decide
  have p3 : iterTIA 30 scanA90 = scanA120 := by decide
  have p4 : iterTIA 30 scanA120 = scanA150 := by decide
  have p5 : iterTIA 30 scanA150 = scanA180 := by decide
  have p6 : iterTIA 30 scanA180 = scanA210 := by decide
  have p7 : iterTIA 18 scanA210 = scanlineStart := by decide
  have q0 : iterTIA 29 hmoveH1 = hmoveB30 := by decide
  have q1 : iterTIA 30 hmoveB30 = hmoveB60 := by decide
  have q2 : iterTIA 30 hmoveB60 = hmoveB90 := by decide
  have q3 : iterTIA 30 hmoveB90 = hmoveB120 := by decide
  have q4 : iterTIA 30 hmoveB120 = hmoveB150 := by decide
  have q5 : iterTIA 30 hmoveB150 = hmoveB180 := by decide
  have q6 : iterTIA 30 hmoveB180 = hmoveB210 := by decide
  have q7 : iterTIA 18 hmoveB210 = scanlineStart := by decide
  have f30 : iterTIA 30 scanlineStart = scanA30 := p0
  have f60 : iterTIA 60 scanlineStart = scanA60 := by
    rw [show (60 : Nat) = 30 + 30 from rfl, iterTIA_add, f30, p1]
  have f90 : iterTIA 90 scanlineStart = scanA90 := by
    rw [show (90 : Nat) = 30 + 60 from rfl, iterTIA_add, f60, p2]
  have f120 : iterTIA 120 scanlineStart = scanA120 := by
    rw [show (120 : Nat) = 30 + 90 from rfl, iterTIA_add, f90, p3]
  have f150 : iterTIA 150 scanlineStart = scanA150 := by
    rw [show (150 : Nat) = 30 + 120 from rfl, iterTIA_add, f120, p4]
  have f180 : iterTIA 180 scanlineStart = scanA180 := by
    rw [show (180 : Nat) = 30 + 150 from rfl, iterTIA_add, f150, p5]
  have f210 : iterTIA 210 scanlineStart = scanA210 := by
    rw [show (210 : Nat) = 30 + 180 from rfl, iterTIA_add, f180, p6]
  have f228 : iterTIA 228 scanlineStart = scanlineStart := by
    rw [show (228 : Nat) = 18 + 210 from rfl, iterTIA_add, f210, p7]
  have g30 : iterTIA 29 hmoveH1 = hmoveB30 := q0
  have g60 : iterTIA 59 hmoveH1 = hmoveB60 := by
    rw [show (59 : Nat) = 30 + 29 from rfl, iterTIA_add, g30, q1]
  have g90 : iterTIA 89 hmoveH1 = hmoveB90 := by
    rw [show (89 : Nat) = 30 + 59 from rfl, iterTIA_add, g60, q2]
  have g120 : iterTIA 119 hmoveH1 = hmoveB120 := by
    rw [show (119 : Nat) = 30 + 89 from rfl, iterTIA_add, g90, q3]
  have g150 : iterTIA 149 hmoveH1 = hmoveB150 := by
    rw [show (149 : Nat) = 30 + 119 from rfl, iterTIA_add, g120, q4]
  have g180 : iterTIA 179 hmoveH1 = hmoveB180 := by
    rw [show (179 : Nat) = 30 + 149 from rfl, iterTIA_add, g150, q5]
  have g210 : iterTIA 209 hmoveH1 = hmoveB210 := by
    rw [show (209 : Nat) = 30 + 179 from rfl, iterTIA_add, g180, q6]
  have g227 : iterTIA 227 hmoveH1 = scanlineStart := by
    rw [show (227 : Nat) = 18 + 209 from rfl, iterTIA_add, g210, q7]
  refine ⟨?_, ?_, ?_, ?_,
    by decide, p0, by decide, p1, by decide, p2, by decide, p3, by decide, p4,
    by decide, p5, by decide, p6, by decide, p7, f228,
    by decide, by decide, q0, by decide, q1, by decide, q2, by decide, q3,
    by decide, q4, by decide, q5, by decide, q6, by decide, q7, g227⟩
  · intro s hph h16 hl
    unfold hsyncPhase
    simp [hph, h16, hl, schedRem]
  · intro s hph h18 hl
    unfold hsyncPhase
    simp [hph, h18, hl, schedRem]
  · intro s hph h57
    unfold hsyncPhase
    simp [hph, h57]
  · intro s h1 hev
    unfold tickHsyncSlot
    simp [h1, hev]

theorem hblank_window_scanline_witness :
    (hsyncPhase { scanlineStart with hsync := 15 }).futHsyncEv = HsyncEv.evHblankOff ∧
    (hsyncPhase { scanlineStart with hsync := 17, hmoveLatch := true }).futHsyncRem =
      schedRem 3 ∧
    (hsyncPhase { scanlineStart with hsync := 56, hmoveLatch := true }).hmoveLatch = false ∧
    (tickHsyncSlot { scanlineStart with futHsyncRem := 1, futHsyncEv := HsyncEv.evHblankOff }).hblank = false :=
  ⟨(hblank_window_scanline.1 _ (by decide) rfl rfl).2,
   (hblank_window_scanline.2.1 _ (by decide) rfl rfl).1,
   (hblank_window_scanline.2.2.1 _ (by decide) rfl).2,
   hblank_window_scanline.2.2.2.1 _ rfl rfl⟩

/-- C3 (counterexample): the invariant does not hold in every reachable
state.  The start-up scanline of `NewTIA` is not aligned with the
steady-state window: 66 cycles after power-on the state is at video
cycle 66 (a color clock in 0-67) with HBLANK already off. -/
theorem hblank_startup_counterexample :
    (iterTIA 66 initTIA).videoCycles = 66 ∧ (iterTIA 66 initTIA).hblank = false := by
  have h33 : iterTIA 33 initTIA =
      { initTIA with videoCycles := 33, sigHSync := true, hblank := true, pclk := 1, hsync := 8, futHsyncRem := 1, futHsyncEv := HsyncEv.evResetHsync } := by
    decide
  rw [show (66 : Nat) = 33 + 33 from rfl, iterTIA_add, h33]
  decide

/-- C4: a write to HMOVE schedules the latch after the phase-dependent
delay and the counter load three clocks later; the delay table is
5, 4, 4, 2 for phase counts 0, 1, 2, 3; when the load event fires the
counter is set to 15 (and, if the cycle is itself a Phi2 cycle, the
same cycle's decrement takes it to 14); on every other cycle the
counter decrements exactly on Phi2 while it is not 0xff; a counter at
0xff stays at 0xff.  Concretely, on the steady scanline an HMOVE write
on cycle 1 (phase count 2, so latch delay 4) sets the latch from cycle
5 until the count-57 wrap ends the scanline, and runs the counter
14, 13, ..., 0, 0xff from cycle 8, one decrement per 4 cycles (traced
in 30-cycle chunks through the `hmoveB` states). -/
theorem hmove_schedule_and_countdown :
    (∀ s : TIAState, TIAState.updateTIA s hmoveWr =
      { s with futHmoveLatchRem := schedRem (hmoveDelay s.pclk),
               futHmoveRem := schedRem (hmoveDelay s.pclk + 3) }) ∧
    (hmoveDelay 0 = 5 ∧ hmoveDelay 1 = 4 ∧ hmoveDelay 2 = 4 ∧ hmoveDelay 3 = 2) ∧
    (∀ s : TIAState, s.futHmoveRem = 1 → s.futRsyncResetRem ≠ 1 →
      (stepTIA s none).1.hmoveCt = if phi2 ((s.pclk + 1) % 4) then 14 else 15) ∧
    (∀ s : TIAState, s.futHmoveRem ≠ 1 → s.futRsyncResetRem ≠ 1 →
      (stepTIA s none).1.hmoveCt =
        if phi2 ((s.pclk + 1) % 4) ∧ s.hmoveCt ≠ 0xff then (s.hmoveCt + 255) % 256
        else s.hmoveCt) ∧
    (∀ s : TIAState, s.hmoveCt = 0xff → s.futHmoveRem ≠ 1 → s.futRsyncResetRem ≠ 1 →
      (stepTIA s none).1.hmoveCt = 0xff) ∧
    stepTIA scanlineStart (some hmoveWr) = (hmoveH1, true) ∧
    (∀ i, i < 29 → (iterTIA i hmoveH1).hmoveLatch = decide (5 ≤ 1 + i) ∧
        (iterTIA i hmoveH1).hmoveCt =
          (if 8 ≤ 1 + i ∧ 1 + i ≤ 67 then 14 - (1 + i - 8) / 4 else 255)) ∧
    iterTIA 29 hmoveH1 = hmoveB30 ∧
    (∀ i, i < 30 → (iterTIA i hmoveB30).hmoveLatch = true ∧
        (iterTIA i hmoveB30).hmoveCt =
          (if 8 ≤ 30 + i ∧ 30 + i ≤ 67 then 14 - (30 + i - 8) / 4 else 255)) ∧
    iterTIA 30 hmoveB30 = hmoveB60 ∧
    (∀ i, i < 30 → (iterTIA i hmoveB60).hmoveLatch = true ∧
        (iterTIA i hmoveB60).hmoveCt =
          (if 8 ≤ 60 + i ∧ 60 + i ≤ 67 then 14 - (60 + i - 8) / 4 else 255)) ∧
    iterTIA 30 hmoveB60 = hmoveB90 ∧
    (∀ i, i < 30 → (iterTIA i hmoveB90).hmoveLatch = true ∧
        (iterTIA i hmoveB90).hmoveCt =
          (if 8 ≤ 90 + i ∧ 90 + i ≤ 67 then 14 - (90 + i - 8) / 4 else 255)) ∧
    iterTIA 30 hmoveB90 = hmoveB120 ∧
    (∀ i, i < 30 → (iterTIA i hmoveB120).hmoveLatch = true ∧
        (iterTIA i hmoveB120).hmoveCt =
          (if 8 ≤ 120 + i ∧ 120 + i ≤ 67 then 14 - (120 + i - 8) / 4 else 255)) ∧
    iterTIA 30 hmoveB120 = hmoveB150 ∧
    (∀ i, i < 30 → (iterTIA i hmoveB150).hmoveLatch = true ∧
        (iterTIA i hmoveB150).hmoveCt =
          (if 8 ≤ 150 + i ∧ 150 + i ≤ 67 then 14 - (150 + i - 8) / 4 else 255)) ∧
    iterTIA 30 hmoveB150 = hmoveB180 ∧
    (∀ i, i < 30 → (iterTIA i hmoveB180).hmoveLatch = true ∧
        (iterTIA i hmoveB180).hmoveCt =
          (if 8 ≤ 180 + i ∧ 180 + i ≤ 67 then 14 - (180 + i - 8) / 4 else 255)) ∧
    iterTIA 30 hmoveB180 = hmoveB210 ∧
    (∀ i, i < 18 → (iterTIA i hmoveB210).hmoveLatch = true ∧
        (iterTIA i hmoveB210).hmoveCt = 255) ∧
    iterTIA 18 hmoveB210 = scanlineStart := by
  have q0 : iterTIA 29 hmoveH1 = hmoveB30 := by decide
  have q1 : iterTIA 30 hmoveB30 = hmoveB60 := by decide
  have q2 : iterTIA 30 hmoveB60 = hmoveB90 := by decide
  have q3 : iterTIA 30 hmoveB90 = hmoveB120 := by decide
  have q4 : iterTIA 30 hmoveB120 = hmoveB150 := by decide
  have q5 : iterTIA 30 hmoveB150 = hmoveB180 := by decide
  have q6 : iterTIA 30 hmoveB180 = hmoveB210 := by decide
  have q7 : iterTIA 18 hmoveB210 = scanlineStart := by decide
  refine ⟨fun _ => rfl, ⟨rfl, rfl, rfl, rfl⟩,
    fun s hf hrr => stepTIA_hmoveCt_load s hf hrr,
    fun s hne hrr => stepTIA_hmoveCt_dec s hne hrr,
    ?_,
    by decide, by decide, q0, by decide, q1, by decide, q2, by decide, q3,
    by decide, q4, by decide, q5, by decide, q6, by decide, q7⟩
  intro s h255 hne hrr
  rw [stepTIA_hmoveCt_dec s hne hrr]
  simp [h255]

theorem hmove_schedule_and_countdown_witness :
    (stepTIA { scanlineStart with futHmoveRem := 1 } none).1.hmoveCt = 15 ∧
    (stepTIA { scanlineStart with hmoveCt := 10, pclk := 1 } none).1.hmoveCt = 9 ∧
    (stepTIA scanlineStart none).1.hmoveCt = 0xff := by
  refine ⟨?_, ?_, ?_⟩
  · have h := hmove_schedule_and_countdown.2.2.1 { scanlineStart with futHmoveRem := 1 }
      rfl (by decide)
    simpa using h
  · have h := hmove_schedule_and_countdown.2.2.2.1 { scanlineStart with hmoveCt := 10, pclk := 1 }
      (by decide) (by decide)
    simpa using h
  · exact hmove_schedule_and_countdown.2.2.2.2.1 scanlineStart rfl (by decide) (by decide)

/-- C1 (witness): the per-cycle action pattern at a concrete trivial
machine. -/
theorem vcsStep_riot_tia_sequencing_witness :
    (cycleVCS (fun r : Unit => r) (fun t : Unit => (t, true)) ⟨(), (), true⟩).2 =
      [VCSAction.runRiot, VCSAction.runTia, VCSAction.runTia, VCSAction.runTia] :=
  (vcsStep_riot_tia_sequencing (fun r : Unit => r) (fun t : Unit => (t, true))
    0 0 ⟨(), (), true⟩).1 ⟨(), (), true⟩

/-- C10 (witness): the empty image is shorter than 0x21 bytes and
fingerprinting it panics. -/
theorem fingerprint_panics_witness : cartridgeFingerprint [] = none :=
  fingerprint_panics.1 [] (by decide)
